import Mathlib

/-!
Verification development for the jesenrpc JSON-RPC 2.0 message library
(src/jesenrpc.c together with its public header).

The core protocol logic of `src/jesenrpc.c` is embedded shallowly: every
`jesenrpc_*` / `jrpc_*` function below is a direct translation of the C
function of the same name.  The generic structured-data tree library
("jesen") is an external collaborator of this repository; following the
specification it is modelled as an inductive JSON tree together with the
capability surface the core consumes (create, add/read typed fields, find,
detach, assign, type predicates, serialize/parse).  Machine integers are
modelled as `Int` (the C types guarantee `int64_t` / `int32_t` ranges, which
appear as explicit hypotheses where they matter), and C `double` values are
modelled as exact rationals `ℚ`; `(double)INT64_MAX` is modelled by its
IEEE-754 value `2^63`.

Heap effects that the claims observe (destruction of previously materialized
batch items, release of a params node, dangling pointers after a tree
destroy) are made explicit: the corresponding functions additionally return
the list of entities they destroyed, and the serialize pipeline computes the
post-destroy state of the source entity from whether its nested node was
detached out of the built tree before the tree was destroyed.
-/

namespace Jesenrpc

/-- Status codes: `ok` is `JESENRPC_ERR_NONE` (= `JESEN_ERR_NONE` = 0), the
`rpc_*` constructors are the `JESENRPC_ERR_*` codes and the `jesen_*`
constructors the distinct `JESEN_ERR_*` codes the core observes.  All codes
are distinct integers in C, hence distinct constructors here. -/
inductive jesenrpc_err_t where
  | ok
  | rpc_invalid_args
  | rpc_validation
  | rpc_alloc
  | jesen_invalid_args
  | jesen_invalid_value_type
  | jesen_not_found
  | jesen_no_space
  deriving DecidableEq, Repr

/-- Modelled from the spec: the tree library's generic dynamically-typed tree
of objects, arrays and scalars.  Numeric scalars keep the storage type the
core distinguishes when writing (`add_int32` vs `add_double`); both satisfy
the numeric type predicate when reading. -/
inductive jesen_node_t where
  | obj (fields : List (String × jesen_node_t))
  | arr (elems : List jesen_node_t)
  | str (s : String)
  | i32 (v : Int)
  | numd (v : ℚ)
  | jbool (b : Bool)
  | null

mutual

/-- Modelled from the spec: the tree library's text rendering of a node.  The
text grammar itself is out of scope of the specification; the model only
needs a deterministic total rendering with a length. -/
def jesen_render : jesen_node_t → String
  | .obj fields => "\x7b" ++ jesen_render_fields fields ++ "\x7d"
  | .arr elems => "[" ++ jesen_render_elems elems ++ "]"
  | .str s => "\x22" ++ s ++ "\x22"
  | .i32 v => toString v
  | .numd v => toString v
  | .jbool b => toString b
  | .null => "null"

/-- Text rendering of the fields of an object node. -/
def jesen_render_fields : List (String × jesen_node_t) → String
  | [] => ""
  | (k, v) :: rest => "\x22" ++ k ++ "\x22:" ++ jesen_render v ++ "," ++ jesen_render_fields rest

/-- Text rendering of the elements of an array node. -/
def jesen_render_elems : List jesen_node_t → String
  | [] => ""
  | e :: rest => jesen_render e ++ "," ++ jesen_render_elems rest

end

/-- Modelled from the spec: a serialized wire message.  The text⇄tree
grammar is the tree library's and out of scope, so the serialized form keeps
the tree it encodes alongside its rendered characters; `jesen_parse` recovers
exactly that tree (the collaborator's parse inverts its serialize). -/
structure jesen_text_t where
  chars : String
  tree : jesen_node_t

/-- Modelled from the spec: `jesen_object_create` — create an empty object
node (allocation is assumed to succeed in the model). -/
def jesen_object_create : jesenrpc_err_t × jesen_node_t :=
  (.ok, .obj [])

/-- Modelled from the spec: `jesen_array_create`. -/
def jesen_array_create : jesenrpc_err_t × jesen_node_t :=
  (.ok, .arr [])

/-- Modelled from the spec: add a named string field to an object node. -/
def jesen_object_add_string (object : jesen_node_t) (key : String) (value : String) :
    jesenrpc_err_t × jesen_node_t :=
  match object with
  | .obj fields => (.ok, .obj (fields ++ [(key, .str value)]))
  | _ => (.jesen_invalid_value_type, object)

/-- Modelled from the spec: add a named 32-bit integer field to an object
node. -/
def jesen_object_add_int32 (object : jesen_node_t) (key : String) (value : Int) :
    jesenrpc_err_t × jesen_node_t :=
  match object with
  | .obj fields => (.ok, .obj (fields ++ [(key, .i32 value)]))
  | _ => (.jesen_invalid_value_type, object)

/-- Modelled from the spec: add a named double field to an object node. -/
def jesen_object_add_double (object : jesen_node_t) (key : String) (value : ℚ) :
    jesenrpc_err_t × jesen_node_t :=
  match object with
  | .obj fields => (.ok, .obj (fields ++ [(key, .numd value)]))
  | _ => (.jesen_invalid_value_type, object)

/-- Modelled from the spec: add a named null field to an object node. -/
def jesen_object_add_null (object : jesen_node_t) (key : String) :
    jesenrpc_err_t × jesen_node_t :=
  match object with
  | .obj fields => (.ok, .obj (fields ++ [(key, .null)]))
  | _ => (.jesen_invalid_value_type, object)

/-- Modelled from the spec: locate a child by key; not-found is reported
distinctly from other errors. -/
def jesen_node_find (node : jesen_node_t) (key : String) :
    jesenrpc_err_t × Option jesen_node_t :=
  match node with
  | .obj fields =>
    match fields.find? (fun f => f.1 == key) with
    | some f => (.ok, some f.2)
    | none => (.jesen_not_found, none)
  | _ => (.jesen_invalid_args, none)

/-- Modelled from the spec: assign a node as a child of another node —
by key for objects, positionally (key ignored, the core passes "") for
arrays — transferring ownership to the parent. -/
def jesen_node_assign_to (parent : jesen_node_t) (key : String) (child : jesen_node_t) :
    jesenrpc_err_t × jesen_node_t :=
  match parent with
  | .obj fields => (.ok, .obj (fields ++ [(key, child)]))
  | .arr elems => (.ok, .arr (elems ++ [child]))
  | _ => (.jesen_invalid_value_type, parent)

/-- Modelled from the spec: detach — remove the child stored under `key`
from `parent` without destroying it (the caller regains sole ownership); the
C `jesen_node_detach` takes the child pointer, the model identifies it by
the key the core assigned it under. -/
def jesen_node_detach_from (parent : jesen_node_t) (key : String) : jesen_node_t :=
  match parent with
  | .obj fields => .obj (fields.eraseP (fun f => f.1 == key))
  | other => other

/-- Modelled from the spec: type predicate, true for object nodes.  (On a
non-null node the predicates cannot fail, so the model makes them pure.) -/
def jesen_value_is_object : jesen_node_t → Bool
  | .obj _ => true
  | _ => false

/-- Modelled from the spec: type predicate, true for array nodes. -/
def jesen_value_is_array : jesen_node_t → Bool
  | .arr _ => true
  | _ => false

/-- Modelled from the spec: type predicate, true for string nodes. -/
def jesen_value_is_string : jesen_node_t → Bool
  | .str _ => true
  | _ => false

/-- Modelled from the spec: type predicate, true for null nodes. -/
def jesen_value_is_null : jesen_node_t → Bool
  | .null => true
  | _ => false

/-- Modelled from the spec: numeric type predicate, true for every numeric
node regardless of storage type (a JSON id written as an int32 still parses
back through this predicate). -/
def jesen_value_is_double : jesen_node_t → Bool
  | .i32 _ => true
  | .numd _ => true
  | _ => false

/-- Modelled from the spec: read a numeric node as a floating-point value
(exact in the rational model). -/
def jesen_value_get_double (node : jesen_node_t) : jesenrpc_err_t × Option ℚ :=
  match node with
  | .i32 v => (.ok, some (v : ℚ))
  | .numd v => (.ok, some v)
  | _ => (.jesen_invalid_value_type, none)

/-- Modelled from the spec: copy a string node into a caller buffer of
`buf_size` bytes (terminator included); an insufficient buffer is reported
as `JESEN_ERR_INVALID_ARGS`, a non-string node as invalid-value-type. -/
def jesen_value_get_string (node : jesen_node_t) (buf_size : Nat) :
    jesenrpc_err_t × Option (String × Nat) :=
  match node with
  | .str s => if s.length + 1 ≤ buf_size then (.ok, some (s, s.length))
              else (.jesen_invalid_args, none)
  | _ => (.jesen_invalid_value_type, none)

/-- Modelled from the spec: read a named string field of an object into a
caller buffer, with the same error discipline as `jesen_value_get_string`. -/
def jesen_object_get_string (object : jesen_node_t) (key : String) (buf_size : Nat) :
    jesenrpc_err_t × Option (String × Nat) :=
  match jesen_node_find object key with
  | (.ok, some child) => jesen_value_get_string child buf_size
  | (rc, _) => (rc, none)

/-- Modelled from the spec: read a named 32-bit integer field of an object. -/
def jesen_object_get_int32 (object : jesen_node_t) (key : String) :
    jesenrpc_err_t × Option Int :=
  match jesen_node_find object key with
  | (.ok, some (.i32 v)) => (.ok, some v)
  | (.ok, some _) => (.jesen_invalid_value_type, none)
  | (rc, _) => (rc, none)

/-- Modelled from the spec: the size of an array node. -/
def jesen_array_size (node : jesen_node_t) : jesenrpc_err_t × Option Nat :=
  match node with
  | .arr elems => (.ok, some elems.length)
  | _ => (.jesen_invalid_value_type, none)

/-- Modelled from the spec: the elements of an array node, as accessed by
`jesen_array_size` / `jesen_array_get_value` indexing (empty for the
non-array nodes the core never reaches here). -/
def jesen_array_elems : jesen_node_t → List jesen_node_t
  | .arr elems => elems
  | _ => []

/-- Modelled from the spec: serialize a node into a caller-provided buffer
of `buf_len` bytes, reporting insufficient space distinctly. -/
def jesen_serialize (node : jesen_node_t) (buf_len : Nat) :
    jesenrpc_err_t × Option jesen_text_t :=
  if (jesen_render node).length + 1 ≤ buf_len then
    (.ok, some { chars := jesen_render node, tree := node })
  else (.jesen_no_space, none)

/-- Modelled from the spec: parse serialized text into a new owned tree;
inverts `jesen_serialize` (the malformed-text failure modes belong to the
out-of-scope grammar and cannot arise for texts produced by the model). -/
def jesen_parse (buf : jesen_text_t) : jesenrpc_err_t × Option jesen_node_t :=
  (.ok, some buf.tree)

/-- Identifier of a Request/Response: the `jesenrpc_id_t` tagged union, with
the kind tag and payload merged into a sum type (`none` = notification /
absent; `number` holds the C `int64_t` value; `string` owns its copied text,
whose length is the stored `len`). -/
inductive jesenrpc_id_t where
  | none
  | number (v : Int)
  | string (s : String)
  | null
  deriving Repr, DecidableEq

/-- Error Object: `jesenrpc_error_object_t` — code (`int32_t`), owned
message text, optional owned data node. -/
structure jesenrpc_error_object_t where
  code : Int
  message : String
  data : Option jesen_node_t

/-- Request: `jesenrpc_request_t` — version tag, identifier, owned method
name, optional owned params node. -/
structure jesenrpc_request_t where
  jsonrpc : String
  id : jesenrpc_id_t
  method_name : String
  params : Option jesen_node_t

/-- Response: `jesenrpc_response_t` — version tag, identifier, optional
owned result node, optional owned error object. -/
structure jesenrpc_response_t where
  jsonrpc : String
  id : jesenrpc_id_t
  result : Option jesen_node_t
  error : Option jesenrpc_error_object_t

/-- Message kinds reported by classification (`jesenrpc_message_kind_t`). -/
inductive jesenrpc_message_kind_t where
  | unknown
  | request_single
  | request_batch
  | response_single
  | response_batch
  deriving DecidableEq, Repr

/-- Translation of `jrpc_doubles_equal`: `diff < 1e-10 && diff > -1e-10`. -/
def jrpc_doubles_equal (a b : ℚ) : Bool :=
  decide (a - b < 1 / 10000000000) && decide (a - b > -(1 / 10000000000))

/-- Truncation toward zero, the semantics of the C cast `(int64_t)val` for
an in-range double. -/
def jrpc_trunc (q : ℚ) : Int :=
  if 0 ≤ q then ⌊q⌋ else ⌈q⌉

/-- Translation of `jesenrpc_id_set_number` (the null-target check has no
counterpart for a value; cleanup of the previous payload is implicit). -/
def jesenrpc_id_set_number (value : Int) : jesenrpc_err_t × jesenrpc_id_t :=
  (.ok, .number value)

/-- Translation of `jesenrpc_id_set_string`: copies the input text. -/
def jesenrpc_id_set_string (value : String) : jesenrpc_err_t × jesenrpc_id_t :=
  (.ok, .string value)

/-- Translation of `jesenrpc_id_set_null`. -/
def jesenrpc_id_set_null : jesenrpc_err_t × jesenrpc_id_t :=
  (.ok, .null)

/-- Translation of `jesenrpc_request_validate`: version tag must equal
"2.0", method name length in [1,256], params (if present) array-or-object,
a String id must be non-empty.  (The C null-pointer checks that return
`INVALID_ARGS` have no counterpart on values.) -/
def jesenrpc_request_validate (request : jesenrpc_request_t) : jesenrpc_err_t :=
  if request.jsonrpc ≠ "2.0" then .rpc_validation
  else if request.method_name.length = 0 ∨ request.method_name.length > 256 then
    .rpc_validation
  else if (match request.params with
           | some p => !(jesen_value_is_array p || jesen_value_is_object p)
           | Option.none => false) then .rpc_validation
  else if (match request.id with
           | .string s => s.length == 0
           | _ => false) then .rpc_validation
  else .ok

/-- Translation of `jesenrpc_error_object_validate`: the message must be
non-empty. -/
def jesenrpc_error_object_validate (error : jesenrpc_error_object_t) : jesenrpc_err_t :=
  if error.message.length = 0 then .rpc_validation else .ok

/-- Translation of `jesenrpc_response_validate`: version tag "2.0", id not
`none`, a String id non-empty, exactly one of result/error, and a present
error object must itself validate. -/
def jesenrpc_response_validate (response : jesenrpc_response_t) : jesenrpc_err_t :=
  if response.jsonrpc ≠ "2.0" then .rpc_validation
  else if (match response.id with | .none => true | _ => false) then .rpc_validation
  else if (match response.id with
           | .string s => s.length == 0
           | _ => false) then .rpc_validation
  else if (response.result.isSome ∧ response.error.isSome) ∨
          (response.result.isNone ∧ response.error.isNone) then .rpc_validation
  else match response.error with
    | some e => jesenrpc_error_object_validate e
    | Option.none => .ok

/-- Unit in the last place of an IEEE-754 double in the binade of a 64-bit
magnitude above 2^53: integers in (2^53, 2^54] are rounded to multiples of
2, those in (2^54, 2^55] to multiples of 4, and so on up to multiples of
1024 for magnitudes above 2^62 (each binade boundary 2^k is a multiple of
the smaller step, so placing it in the lower bucket is exact). -/
def jrpc_double_ulp (a : Nat) : Nat :=
  if a ≤ 18014398509481984 then 2
  else if a ≤ 36028797018963968 then 4
  else if a ≤ 72057594037927936 then 8
  else if a ≤ 144115188075855872 then 16
  else if a ≤ 288230376151711744 then 32
  else if a ≤ 576460752303423488 then 64
  else if a ≤ 1152921504606846976 then 128
  else if a ≤ 2305843009213693952 then 256
  else if a ≤ 4611686018427387904 then 512
  else 1024

/-- Value of the C cast `(double)num` on a 64-bit integer: magnitudes up to
2^53 are exactly representable and unchanged; a larger magnitude rounds to
the nearest multiple of the unit in the last place of its binade, with a
tie going to the multiple whose significand is even (IEEE-754
round-to-nearest-even, the rounding mode C implementations use for
integer-to-double conversion). -/
def jrpc_double_of_int (num : Int) : Int :=
  if num.natAbs ≤ 9007199254740992 then num
  else
    let s : Int := (jrpc_double_ulp num.natAbs : Nat)
    let q := Int.fdiv num s
    let r := num - q * s
    if 2 * r < s then q * s
    else if s < 2 * r then (q + 1) * s
    else if q % 2 = 0 then q * s else (q + 1) * s

/-- Translation of `jrpc_add_id_to_object`: a `none` id adds nothing, a
null id adds a null field, a string id adds a string field, and a number id
is added as an int32 field when it fits the 32-bit signed range and as a
double field holding the value of the C cast `(double)num` otherwise. -/
def jrpc_add_id_to_object (object : jesen_node_t) (id : jesenrpc_id_t) :
    jesenrpc_err_t × jesen_node_t :=
  match id with
  | .none => (.ok, object)
  | .null => jesen_object_add_null object "id"
  | .string s => jesen_object_add_string object "id" s
  | .number num =>
    if -2147483648 ≤ num ∧ num ≤ 2147483647 then
      jesen_object_add_int32 object "id" num
    else
      jesen_object_add_double object "id" (jrpc_double_of_int num : ℚ)

/-- Translation of `jrpc_build_request_node`: validate, create the object,
add "jsonrpc", the id, "method", and assign the params node into the output
tree when present. -/
def jrpc_build_request_node (request : jesenrpc_request_t) :
    jesenrpc_err_t × Option jesen_node_t :=
  match jesenrpc_request_validate request with
  | .ok =>
    match jesen_object_create with
    | (.ok, root) =>
      match jesen_object_add_string root "jsonrpc" "2.0" with
      | (.ok, root) =>
        match jrpc_add_id_to_object root request.id with
        | (.ok, root) =>
          match jesen_object_add_string root "method" request.method_name with
          | (.ok, root) =>
            match request.params with
            | some p =>
              match jesen_node_assign_to root "params" p with
              | (.ok, root) => (.ok, some root)
              | (rc, _) => (rc, Option.none)
            | Option.none => (.ok, some root)
          | (rc, _) => (rc, Option.none)
        | (rc, _) => (rc, Option.none)
      | (rc, _) => (rc, Option.none)
    | (rc, _) => (rc, Option.none)
  | rc => (rc, Option.none)

/-- Translation of `jrpc_build_error_node`: validate, create the object,
add "code" and "message", and assign the data node when present. -/
def jrpc_build_error_node (error : jesenrpc_error_object_t) :
    jesenrpc_err_t × Option jesen_node_t :=
  match jesenrpc_error_object_validate error with
  | .ok =>
    match jesen_object_create with
    | (.ok, err_obj) =>
      match jesen_object_add_int32 err_obj "code" error.code with
      | (.ok, err_obj) =>
        match jesen_object_add_string err_obj "message" error.message with
        | (.ok, err_obj) =>
          match error.data with
          | some d =>
            match jesen_node_assign_to err_obj "data" d with
            | (.ok, err_obj) => (.ok, some err_obj)
            | (rc, _) => (rc, Option.none)
          | Option.none => (.ok, some err_obj)
        | (rc, _) => (rc, Option.none)
      | (rc, _) => (rc, Option.none)
    | (rc, _) => (rc, Option.none)
  | rc => (rc, Option.none)

/-- Translation of `jrpc_build_response_node`: validate, create the object,
add "jsonrpc" and the id, then assign the result node or build-and-assign
the error node. -/
def jrpc_build_response_node (response : jesenrpc_response_t) :
    jesenrpc_err_t × Option jesen_node_t :=
  match jesenrpc_response_validate response with
  | .ok =>
    match jesen_object_create with
    | (.ok, root) =>
      match jesen_object_add_string root "jsonrpc" "2.0" with
      | (.ok, root) =>
        match jrpc_add_id_to_object root response.id with
        | (.ok, root) =>
          match response.result with
          | some r =>
            match jesen_node_assign_to root "result" r with
            | (.ok, root) => (.ok, some root)
            | (rc, _) => (rc, Option.none)
          | Option.none =>
            match response.error with
            | some e =>
              match jrpc_build_error_node e with
              | (.ok, some error_node) =>
                match jesen_node_assign_to root "error" error_node with
                | (.ok, root) => (.ok, some root)
                | (rc, _) => (rc, Option.none)
              | (rc, _) => (rc, Option.none)
            | Option.none => (.ok, some root)
        | (rc, _) => (rc, Option.none)
      | (rc, _) => (rc, Option.none)
    | (rc, _) => (rc, Option.none)
  | rc => (rc, Option.none)

/-- Translation of `jrpc_serialize_node`: a zero-length output buffer is
invalid arguments, otherwise the tree library serializes. -/
def jrpc_serialize_node (node : jesen_node_t) (out_buf_len : Nat) :
    jesenrpc_err_t × Option jesen_text_t :=
  if out_buf_len = 0 then (.rpc_invalid_args, Option.none)
  else jesen_serialize node out_buf_len

/-- Translation of the while loop of `jrpc_copy_string_value`: try a buffer
of `buf_size` bytes while `buf_size ≤ max_attempt`, doubling on an
insufficient-buffer (`JESEN_ERR_INVALID_ARGS`) report and propagating every
other failure; leaving the loop yields `JESENRPC_ERR_INVALID_ARGS`.  `fuel`
bounds the recursion; it is set to `max_attempt`, which the doubling buffer
size (starting at 64) can never exhaust before exceeding `max_attempt`, so
the fuel-exhausted result coincides with the loop-exit result. -/
def jrpc_copy_string_loop (node : jesen_node_t) (max_attempt : Nat) :
    Nat → Nat → jesenrpc_err_t × Option (String × Nat)
  | _, 0 => (.rpc_invalid_args, Option.none)
  | buf_size, fuel + 1 =>
    if buf_size ≤ max_attempt then
      match jesen_value_get_string node buf_size with
      | (.ok, some res) => (.ok, some res)
      | (rc, _) =>
        if rc = .jesen_invalid_value_type then (rc, Option.none)
        else if rc ≠ .jesen_invalid_args then (rc, Option.none)
        else jrpc_copy_string_loop node max_attempt (buf_size * 2) fuel
    else (.rpc_invalid_args, Option.none)

/-- Translation of `jrpc_copy_string_value`: bounded growing-buffer read of
a string node, starting at 64 bytes and capped at `max_attempt`. -/
def jrpc_copy_string_value (node : jesen_node_t) (max_attempt : Nat) :
    jesenrpc_err_t × Option (String × Nat) :=
  if max_attempt = 0 then (.rpc_invalid_args, Option.none)
  else jrpc_copy_string_loop node max_attempt 64 max_attempt

/-- Translation of `jrpc_read_object_string_with_limit`: single read into a
buffer of `max_len + 1` bytes, mapping the insufficient-buffer report
(`JESEN_ERR_INVALID_ARGS`) to a Validation failure and propagating every
other error (including not-found) unchanged. -/
def jrpc_read_object_string_with_limit (object : jesen_node_t) (key : String)
    (max_len : Nat) : jesenrpc_err_t × Option String :=
  let buf_len := max_len + 1
  match jesen_object_get_string object key buf_len with
  | (.ok, some res) => (.ok, some res.1)
  | (rc, _) => (if rc = .jesen_invalid_args then .rpc_validation else rc, Option.none)

/-- Translation of `jrpc_parse_id`: classify the id node by type — null,
string (bounded growing-buffer copy up to 8192), numeric (read as a double,
range-check against the double values of the int64 bounds, truncate, and
require the cast to round-trip within the 1e-10 tolerance) — rejecting any
other type with Validation. -/
def jrpc_parse_id (id_node : jesen_node_t) : jesenrpc_err_t × Option jesenrpc_id_t :=
  if jesen_value_is_null id_node then
    match jesenrpc_id_set_null with
    | (rc, id) => (rc, some id)
  else if jesen_value_is_string id_node then
    match jrpc_copy_string_value id_node 8192 with
    | (.ok, some res) => (.ok, some (.string res.1))
    | (rc, _) => (rc, Option.none)
  else if jesen_value_is_double id_node then
    match jesen_value_get_double id_node with
    | (.ok, some val) =>
      if val > (9223372036854775808 : ℚ) ∨ val < -(9223372036854775808 : ℚ) then
        (.rpc_validation, Option.none)
      else
        let as_int : Int := jrpc_trunc val
        if ¬ jrpc_doubles_equal (as_int : ℚ) val then (.rpc_validation, Option.none)
        else
          match jesenrpc_id_set_number as_int with
          | (rc, id) => (rc, some id)
    | (rc, _) => (rc, Option.none)
  else (.rpc_validation, Option.none)

/-- Translation of `jrpc_parse_request_node`: require an object, check the
version string, read the method (limit 256), locate optional "params"
(must be array-or-object, then detached and transferred) and optional "id"
(classified by `jrpc_parse_id`; absent means notification). -/
def jrpc_parse_request_node (root : jesen_node_t) :
    jesenrpc_err_t × Option jesenrpc_request_t :=
  if ¬ jesen_value_is_object root then (.rpc_validation, Option.none)
  else
    match jrpc_read_object_string_with_limit root "jsonrpc" 3 with
    | (rc, Option.none) => (rc, Option.none)
    | (_, some version) =>
      if version ≠ "2.0" then (.rpc_validation, Option.none)
      else
        match jrpc_read_object_string_with_limit root "method" 256 with
        | (rc, Option.none) => (rc, Option.none)
        | (_, some method) =>
          match jesen_node_find root "params" with
          | (perr, params_node) =>
            if perr ≠ .ok ∧ perr ≠ .jesen_not_found then (perr, Option.none)
            else
              match jesen_node_find root "id" with
              | (ierr, id_node) =>
                if ierr ≠ .ok ∧ ierr ≠ .jesen_not_found then (ierr, Option.none)
                else
                  let req : jesenrpc_request_t :=
                    { jsonrpc := "2.0", method_name := method,
                      params := Option.none, id := .none }
                  match params_node with
                  | some pn =>
                    if ¬ (jesen_value_is_object pn ∨ jesen_value_is_array pn) then
                      (.rpc_validation, Option.none)
                    else
                      let req := { req with params := some pn }
                      match id_node with
                      | some idn =>
                        match jrpc_parse_id idn with
                        | (.ok, some id) => (.ok, some { req with id := id })
                        | (rc, _) => (rc, Option.none)
                      | Option.none => (.ok, some req)
                  | Option.none =>
                    match id_node with
                    | some idn =>
                      match jrpc_parse_id idn with
                      | (.ok, some id) => (.ok, some { req with id := id })
                      | (rc, _) => (rc, Option.none)
                    | Option.none => (.ok, some req)

/-- Translation of `jrpc_parse_error_object`: require an object, a numeric
"code" (absence is Validation), a "message" (limit 4096), and transfer an
optional "data" node. -/
def jrpc_parse_error_object (error_node : jesen_node_t) :
    jesenrpc_err_t × Option jesenrpc_error_object_t :=
  if ¬ jesen_value_is_object error_node then (.rpc_validation, Option.none)
  else
    match jesen_object_get_int32 error_node "code" with
    | (rc, Option.none) =>
      (if rc = .jesen_not_found then .rpc_validation else rc, Option.none)
    | (_, some code) =>
      match jrpc_read_object_string_with_limit error_node "message" 4096 with
      | (rc, Option.none) => (rc, Option.none)
      | (_, some message) =>
        match jesen_node_find error_node "data" with
        | (derr, data_node) =>
          if derr ≠ .ok ∧ derr ≠ .jesen_not_found then (derr, Option.none)
          else (.ok, some { code := code, message := message, data := data_node })

/-- Translation of `jrpc_parse_response_node`: require an object, check the
version, require an "id" field (absence is Validation), require exactly one
of "result"/"error", parse the id, and transfer the result node or parse
the error object. -/
def jrpc_parse_response_node (root : jesen_node_t) :
    jesenrpc_err_t × Option jesenrpc_response_t :=
  if ¬ jesen_value_is_object root then (.rpc_validation, Option.none)
  else
    match jrpc_read_object_string_with_limit root "jsonrpc" 3 with
    | (rc, Option.none) => (rc, Option.none)
    | (_, some version) =>
      if version ≠ "2.0" then (.rpc_validation, Option.none)
      else
        match jesen_node_find root "id" with
        | (.ok, some id_node) =>
          match jesen_node_find root "result" with
          | (rerr, result_node) =>
            if rerr ≠ .ok ∧ rerr ≠ .jesen_not_found then (rerr, Option.none)
            else
              match jesen_node_find root "error" with
              | (eerr, error_node) =>
                if eerr ≠ .ok ∧ eerr ≠ .jesen_not_found then (eerr, Option.none)
                else if (result_node.isSome ∧ error_node.isSome) ∨
                        (result_node.isNone ∧ error_node.isNone) then
                  (.rpc_validation, Option.none)
                else
                  match jrpc_parse_id id_node with
                  | (.ok, some id) =>
                    match result_node with
                    | some rn =>
                      (.ok, some { jsonrpc := "2.0", id := id,
                                   result := some rn, error := Option.none })
                    | Option.none =>
                      match error_node with
                      | some en =>
                        match jrpc_parse_error_object en with
                        | (.ok, some err_obj) =>
                          (.ok, some { jsonrpc := "2.0", id := id,
                                       result := Option.none, error := some err_obj })
                        | (rc, _) => (rc, Option.none)
                      | Option.none => (.rpc_validation, Option.none)
                  | (rc, _) => (rc, Option.none)
        | (rc, _) =>
          (if rc = .jesen_not_found then .rpc_validation else rc, Option.none)

/-- Translation of `jrpc_parse_buffer_as_node`. -/
def jrpc_parse_buffer_as_node (buf : jesen_text_t) :
    jesenrpc_err_t × Option jesen_node_t :=
  jesen_parse buf

/-- Translation of `jesenrpc_request_create`: `strnlen` caps the measured
length at `JESENRPC_METHOD_NAME_MAX_LEN + 1`; an empty or over-long name is
rejected with InvalidArgs, otherwise a notification request carrying a copy
of the name is returned. -/
def jesenrpc_request_create (method_name : String) :
    jesenrpc_err_t × Option jesenrpc_request_t :=
  let len := min method_name.length 257
  if len = 0 ∨ len > 256 then (.rpc_invalid_args, Option.none)
  else (.ok, some { jsonrpc := "2.0", id := .none,
                    method_name := method_name, params := Option.none })

/-- Translation of `jesenrpc_request_set_id`: clones the identifier onto
the request, releasing the prior one. -/
def jesenrpc_request_set_id (request : jesenrpc_request_t) (id : jesenrpc_id_t) :
    jesenrpc_err_t × jesenrpc_request_t :=
  (.ok, { request with id := id })

/-- Translation of `jesenrpc_request_create_with_id`. -/
def jesenrpc_request_create_with_id (method_name : String) (id : jesenrpc_id_t) :
    jesenrpc_err_t × Option jesenrpc_request_t :=
  match jesenrpc_request_create method_name with
  | (.ok, some req) =>
    match jesenrpc_request_set_id req id with
    | (.ok, req) => (.ok, some req)
    | (rc, _) => (rc, Option.none)
  | (rc, _) => (rc, Option.none)

/-- Translation of `jesenrpc_request_set_params`: a non-null params node
must be array- or object-typed (Validation otherwise, request untouched); a
null argument skips the type check.  Either way the previously held params
node is destroyed and replaced; the third component is the list of nodes
destroyed by the call. -/
def jesenrpc_request_set_params (request : jesenrpc_request_t)
    (params : Option jesen_node_t) :
    jesenrpc_err_t × jesenrpc_request_t × List jesen_node_t :=
  match params with
  | some p =>
    if ¬ (jesen_value_is_array p ∨ jesen_value_is_object p) then
      (.rpc_validation, request, [])
    else
      match request.params with
      | some old => (.ok, { request with params := some p }, [old])
      | Option.none => (.ok, { request with params := some p }, [])
  | Option.none =>
    match request.params with
    | some old => (.ok, { request with params := Option.none }, [old])
    | Option.none => (.ok, { request with params := Option.none }, [])

/-- Translation of `jesenrpc_request_is_notification`: pure predicate on
`id.kind == JESENRPC_ID_NONE`. -/
def jesenrpc_request_is_notification (request : jesenrpc_request_t) : Bool :=
  match request.id with
  | .none => true
  | _ => false

/-- Translation of `jesenrpc_request_serialize`: build the tree (assigning
the request's params node into it), serialize, then detach the params node
back out before destroying the tree.  The returned request is the caller's
entity after the call: destroying the built tree releases every child still
attached, so the request's params pointer would dangle (modelled as the
params field dropping to `none`) exactly when its node was not detached
first. -/
def jesenrpc_request_serialize (request : jesenrpc_request_t) (out_buf_len : Nat) :
    jesenrpc_err_t × Option jesen_text_t × jesenrpc_request_t :=
  match jrpc_build_request_node request with
  | (rc, Option.none) => (rc, Option.none, request)
  | (_, some node) =>
    let ser := jrpc_serialize_node node out_buf_len
    let node1 := if request.params.isSome then jesen_node_detach_from node "params"
                 else node
    let request1 :=
      if request.params.isSome ∧ (jesen_node_find node1 "params").1 = .ok then
        { request with params := Option.none }
      else request
    (ser.1, ser.2, request1)

/-- Translation of `jesenrpc_request_parse`: parse the text into a tree,
materialize a request from it, destroy the tree. -/
def jesenrpc_request_parse (buf : jesen_text_t) :
    jesenrpc_err_t × Option jesenrpc_request_t :=
  match jrpc_parse_buffer_as_node buf with
  | (rc, Option.none) => (rc, Option.none)
  | (_, some root) => jrpc_parse_request_node root

/-- Translation of `jesenrpc_response_create_with_id`: clone the identifier
into a fresh response with neither result nor error. -/
def jesenrpc_response_create_with_id (id : jesenrpc_id_t) :
    jesenrpc_err_t × Option jesenrpc_response_t :=
  (.ok, some { jsonrpc := "2.0", id := id,
               result := Option.none, error := Option.none })

/-- Translation of `jesenrpc_response_create_for_request`: a notification
(id kind `none`) has no id to respond to and is rejected with InvalidArgs;
otherwise the request's id is cloned into a new response. -/
def jesenrpc_response_create_for_request (request : jesenrpc_request_t) :
    jesenrpc_err_t × Option jesenrpc_response_t :=
  match request.id with
  | .none => (.rpc_invalid_args, Option.none)
  | _ => jesenrpc_response_create_with_id request.id

/-- Translation of `jesenrpc_response_create`: convenience constructor for
a numeric (int32) id. -/
def jesenrpc_response_create (request_id : Int) :
    jesenrpc_err_t × Option jesenrpc_response_t :=
  jesenrpc_response_create_with_id (.number request_id)

/-- Translation of `jesenrpc_response_set_result`: fails with InvalidArgs
when given a null result or when either result or error is already set,
leaving the response unchanged; otherwise stores the result. -/
def jesenrpc_response_set_result (response : jesenrpc_response_t)
    (result : Option jesen_node_t) : jesenrpc_err_t × jesenrpc_response_t :=
  match result with
  | Option.none => (.rpc_invalid_args, response)
  | some r =>
    if response.error.isSome ∨ response.result.isSome then
      (.rpc_invalid_args, response)
    else (.ok, { response with result := some r })

/-- Translation of `jesenrpc_response_set_error`: fails with InvalidArgs
when given a null error or when either result or error is already set,
leaving the response unchanged; otherwise stores the error object. -/
def jesenrpc_response_set_error (response : jesenrpc_response_t)
    (error : Option jesenrpc_error_object_t) : jesenrpc_err_t × jesenrpc_response_t :=
  match error with
  | Option.none => (.rpc_invalid_args, response)
  | some e =>
    if response.result.isSome ∨ response.error.isSome then
      (.rpc_invalid_args, response)
    else (.ok, { response with error := some e })

/-- Modelled from the spec: replace the child stored under `key` (used to
express detaching a grandchild: the parent keeps its child object, which
loses one of its own children). -/
def jesen_node_replace_child (parent : jesen_node_t) (key : String)
    (child : jesen_node_t) : jesen_node_t :=
  match parent with
  | .obj fields => .obj (fields.map (fun f => if f.1 == key then (f.1, child) else f))
  | other => other

/-- Translation of `jesenrpc_response_serialize`: build, serialize, then
detach the response's result node (or its error's data node) back out of
the built tree before destroying it; as with requests, the returned
response reflects whether its nested node survived the tree destroy. -/
def jesenrpc_response_serialize (response : jesenrpc_response_t) (out_buf_len : Nat) :
    jesenrpc_err_t × Option jesen_text_t × jesenrpc_response_t :=
  match jrpc_build_response_node response with
  | (rc, Option.none) => (rc, Option.none, response)
  | (_, some node) =>
    let ser := jrpc_serialize_node node out_buf_len
    let has_err_data : Bool := (match response.error with
                                | some e => e.data.isSome
                                | Option.none => false)
    let node1 :=
      if response.result.isSome then jesen_node_detach_from node "result"
      else if has_err_data = true then
        match jesen_node_find node "error" with
        | (.ok, some err_node) =>
          jesen_node_replace_child node "error" (jesen_node_detach_from err_node "data")
        | _ => node
      else node
    let data_still_attached : Bool :=
      match jesen_node_find node1 "error" with
      | (.ok, some err_node) => (jesen_node_find err_node "data").1 == .ok
      | _ => false
    let response1 :=
      if response.result.isSome ∧ (jesen_node_find node1 "result").1 = .ok then
        { response with result := Option.none }
      else if has_err_data = true ∧ data_still_attached = true then
        { response with error := response.error.map (fun e => { e with data := Option.none }) }
      else response
    (ser.1, ser.2, response1)

/-- Translation of `jesenrpc_response_parse`. -/
def jesenrpc_response_parse (buf : jesen_text_t) :
    jesenrpc_err_t × Option jesenrpc_response_t :=
  match jrpc_parse_buffer_as_node buf with
  | (rc, Option.none) => (rc, Option.none)
  | (_, some root) => jrpc_parse_response_node root

/-- Translation of the element loop of `jrpc_parse_request_batch_from_node`
(the `for (i…) { get_value; parse; }` body, iterating the array's elements
directly).  Returns the status, the materialized items on success, and the
list of previously materialized items that the failure path destroyed
(empty on success: nothing is destroyed then). -/
def jrpc_parse_request_batch_loop (elems : List jesen_node_t)
    (acc : List jesenrpc_request_t) :
    jesenrpc_err_t × List jesenrpc_request_t × List jesenrpc_request_t :=
  match elems with
  | [] => (.ok, acc.reverse, [])
  | elem :: rest =>
    match jrpc_parse_request_node elem with
    | (.ok, oreq) => jrpc_parse_request_batch_loop rest (oreq.toList ++ acc)
    | (rc, _) => (rc, [], acc.reverse)

/-- Translation of `jrpc_parse_request_batch_from_node`: the out batch is
initialized empty; a non-array root is Validation; a zero-length array
succeeds with an empty batch; otherwise the element loop runs with the
all-or-nothing failure handling above.  The result is the status, the out
batch's items (left empty on failure), and the destroyed items. -/
def jrpc_parse_request_batch_from_node (root : jesen_node_t) :
    jesenrpc_err_t × List jesenrpc_request_t × List jesenrpc_request_t :=
  if ¬ jesen_value_is_array root then (.rpc_validation, [], [])
  else
    let elems := jesen_array_elems root
    if elems.length = 0 then (.ok, [], [])
    else jrpc_parse_request_batch_loop elems []

/-- Translation of the element loop of `jrpc_parse_response_batch_from_node`,
with the same result convention as the request loop. -/
def jrpc_parse_response_batch_loop (elems : List jesen_node_t)
    (acc : List jesenrpc_response_t) :
    jesenrpc_err_t × List jesenrpc_response_t × List jesenrpc_response_t :=
  match elems with
  | [] => (.ok, acc.reverse, [])
  | elem :: rest =>
    match jrpc_parse_response_node elem with
    | (.ok, oresp) => jrpc_parse_response_batch_loop rest (oresp.toList ++ acc)
    | (rc, _) => (rc, [], acc.reverse)

/-- Translation of `jrpc_parse_response_batch_from_node`. -/
def jrpc_parse_response_batch_from_node (root : jesen_node_t) :
    jesenrpc_err_t × List jesenrpc_response_t × List jesenrpc_response_t :=
  if ¬ jesen_value_is_array root then (.rpc_validation, [], [])
  else
    let elems := jesen_array_elems root
    if elems.length = 0 then (.ok, [], [])
    else jrpc_parse_response_batch_loop elems []

/-- Translation of `jrpc_detect_message_kind_from_object`: require an
object; a "method" field together with "result" or "error" is Validation;
"method" alone is the request kind (single or batch per `in_batch`);
"result" or "error" without "method" is the response kind; none of the
three is Validation. -/
def jrpc_detect_message_kind_from_object (object : jesen_node_t) (in_batch : Bool) :
    jesenrpc_err_t × Option jesenrpc_message_kind_t :=
  if ¬ jesen_value_is_object object then (.rpc_validation, Option.none)
  else
    let has_method := (jesen_node_find object "method").1 = .ok
    let has_result := (jesen_node_find object "result").1 = .ok
    let has_error := (jesen_node_find object "error").1 = .ok
    if has_method then
      if has_result ∨ has_error then (.rpc_validation, Option.none)
      else (.ok, some (if in_batch then .request_batch else .request_single))
    else if has_result ∨ has_error then
      (.ok, some (if in_batch then .response_batch else .response_single))
    else (.rpc_validation, Option.none)

/-- Translation of `jrpc_detect_message_kind_from_node`: an array root of
length zero is Validation (no element to classify); a non-empty array
classifies its first element in batch mode; a non-array root is classified
directly as a single message. -/
def jrpc_detect_message_kind_from_node (root : jesen_node_t) :
    jesenrpc_err_t × Option jesenrpc_message_kind_t :=
  if jesen_value_is_array root then
    let elems := jesen_array_elems root
    if elems.length = 0 then (.rpc_validation, Option.none)
    else
      match elems with
      | first :: _ => jrpc_detect_message_kind_from_object first true
      | [] => (.rpc_validation, Option.none)
  else jrpc_detect_message_kind_from_object root false

/-- Fields contributed to a built message object by `jrpc_add_id_to_object`
for each identifier kind. -/
def jrpc_id_fields : jesenrpc_id_t → List (String × jesen_node_t)
  | .none => []
  | .null => [("id", .null)]
  | .string s => [("id", .str s)]
  | .number num =>
    if -2147483648 ≤ num ∧ num ≤ 2147483647 then [("id", .i32 num)]
    else [("id", .numd (jrpc_double_of_int num : ℚ))]

/-- Field contributed to a built request object by an optional params node. -/
def jrpc_params_fields : Option jesen_node_t → List (String × jesen_node_t)
  | some p => [("params", p)]
  | Option.none => []


/-- Field contributed to a built error object by an optional data node. -/
def jrpc_data_fields : Option jesen_node_t → List (String × jesen_node_t)
  | some d => [("data", d)]
  | Option.none => []

/-- Canonical tree shape of a built error object. -/
def jrpc_error_node_shape (error : jesenrpc_error_object_t) : jesen_node_t :=
  .obj ([("code", .i32 error.code), ("message", .str error.message)] ++
    jrpc_data_fields error.data)

/-- Fields contributed to a built response object by its result node or its
error object (exactly one of which a valid response carries). -/
def jrpc_result_error_fields (response : jesenrpc_response_t) :
    List (String × jesen_node_t) :=
  match response.result with
  | some r => [("result", r)]
  | Option.none =>
    match response.error with
    | some e => [("error", jrpc_error_node_shape e)]
    | Option.none => []

/-- Success of the growing-buffer loop: a string of length at most 8191
fits one of the attempted buffers (64, 128, …, 8192), so the loop copies it
and reports its length.  The buffer size is tracked as `64 * 2 ^ j`. -/
theorem jrpc_copy_string_loop_ok (s : String) (hs : s.length + 1 ≤ 8192) :
    ∀ (fuel j : Nat), 64 * 2 ^ j ≤ 8192 → 8192 < 64 * 2 ^ j * 2 ^ fuel →
      jrpc_copy_string_loop (.str s) 8192 (64 * 2 ^ j) fuel =
        (.ok, some (s, s.length)) := by
  intro fuel
  induction fuel with
  | zero =>
    intro j hj hfuel
    rw [pow_zero, mul_one] at hfuel
    omega
  | succ f ih =>
    intro j hj hfuel
    rw [jrpc_copy_string_loop, if_pos hj]
    by_cases hfit : s.length + 1 ≤ 64 * 2 ^ j
    · simp [jesen_value_get_string, hfit]
    · have hj2 : 64 * 2 ^ (j + 1) ≤ 8192 := by
        by_cases hj6 : j ≤ 6
        · have : (2 : ℕ) ^ (j + 1) ≤ 2 ^ 7 :=
            Nat.pow_le_pow_right (by norm_num) (by omega)
          calc 64 * 2 ^ (j + 1) ≤ 64 * 2 ^ 7 := Nat.mul_le_mul_left _ this
            _ = 8192 := by norm_num
        · exfalso
          have : (2 : ℕ) ^ 7 ≤ 2 ^ j :=
            Nat.pow_le_pow_right (by norm_num) (by omega)
          have : 8192 ≤ 64 * 2 ^ j := by
            calc (8192 : ℕ) = 64 * 2 ^ 7 := by norm_num
              _ ≤ 64 * 2 ^ j := Nat.mul_le_mul_left _ this
          omega
      have hfuel2 : 8192 < 64 * 2 ^ (j + 1) * 2 ^ f := by
        calc (8192 : ℕ) < 64 * 2 ^ j * 2 ^ (f + 1) := hfuel
          _ = 64 * 2 ^ (j + 1) * 2 ^ f := by ring
      have hrec := ih (j + 1) hj2 hfuel2
      have hbs : 64 * 2 ^ j * 2 = 64 * 2 ^ (j + 1) := by ring
      simp only [jesen_value_get_string, if_neg hfit]
      rw [hbs]
      simpa using hrec

/-- Success of `jrpc_copy_string_value` for strings of length at most
8191 with the 8192 cap the id parser uses. -/
theorem jrpc_copy_string_value_ok (s : String) (hs : s.length ≤ 8191) :
    jrpc_copy_string_value (.str s) 8192 = (.ok, some (s, s.length)) := by
  unfold jrpc_copy_string_value
  rw [if_neg (by norm_num)]
  have hfuel : 8192 < 64 * 2 ^ 0 * 2 ^ 8192 := by
    have h2 : (2 : ℕ) ^ 8 ≤ 2 ^ 8192 := Nat.pow_le_pow_right (by norm_num) (by norm_num)
    calc (8192 : ℕ) < 64 * 2 ^ 8 := by norm_num
      _ ≤ 64 * 2 ^ 8192 := Nat.mul_le_mul_left _ h2
      _ = 64 * 2 ^ 0 * 2 ^ 8192 := by ring
  have h := jrpc_copy_string_loop_ok s (by omega) 8192 0 (by norm_num) hfuel
  simpa using h

/-- Failure of the growing-buffer loop on a string longer than every
attempted buffer: the loop runs out of buffer sizes and reports
InvalidArgs. -/
theorem jrpc_copy_string_loop_fail (s : String) (hs : 8192 < s.length + 1) :
    ∀ (fuel buf_size : Nat),
      jrpc_copy_string_loop (.str s) 8192 buf_size fuel =
        (.rpc_invalid_args, Option.none) := by
  intro fuel
  induction fuel with
  | zero => intro bs; rfl
  | succ f ih =>
    intro bs
    rw [jrpc_copy_string_loop]
    by_cases hbs : bs ≤ 8192
    · rw [if_pos hbs]
      have hfit : ¬ (s.length + 1 ≤ bs) := by omega
      simp [jesen_value_get_string, hfit, ih]
    · rw [if_neg hbs]

/-- Failure of `jrpc_copy_string_value` on a string of length 8192 or
more: every buffer up to the 8192 cap is too small. -/
theorem jrpc_copy_string_value_fail (s : String) (hs : 8192 ≤ s.length) :
    jrpc_copy_string_value (.str s) 8192 = (.rpc_invalid_args, Option.none) := by
  unfold jrpc_copy_string_value
  rw [if_neg (by norm_num)]
  exact jrpc_copy_string_loop_fail s (by omega) 8192 64

/-- Round trip of a null identifier node through `jrpc_parse_id`. -/
theorem jrpc_parse_id_null : jrpc_parse_id .null = (.ok, some .null) := rfl

/-- Round trip of a string identifier node of length at most 8191 through
`jrpc_parse_id`. -/
theorem jrpc_parse_id_str (s : String) (hs : s.length ≤ 8191) :
    jrpc_parse_id (.str s) = (.ok, some (.string s)) := by
  unfold jrpc_parse_id
  simp [jesen_value_is_null, jesen_value_is_string,
    jrpc_copy_string_value_ok s hs]


/-- Truncation of an integer-valued rational is that integer. -/
theorem jrpc_trunc_intCast (n : Int) : jrpc_trunc (n : ℚ) = n := by
  unfold jrpc_trunc
  split <;> simp

/-- Reflexivity of the tolerance comparison: every value equals itself
within 1e-10. -/
theorem jrpc_doubles_equal_self (a : ℚ) : jrpc_doubles_equal a a = true := by
  simp only [jrpc_doubles_equal, sub_self]
  norm_num

/-- Round trip of an integer identifier through `jrpc_parse_id`, for both
numeric storage types, given the int64 range the C type guarantees. -/
theorem jrpc_parse_id_int (n : Int) (hlo : -(2 ^ 63) ≤ n) (hhi : n ≤ 2 ^ 63 - 1) :
    jrpc_parse_id (.numd (n : ℚ)) = (.ok, some (.number n)) ∧
    jrpc_parse_id (.i32 n) = (.ok, some (.number n)) := by
  have hrange : ¬ ((n : ℚ) > (9223372036854775808 : ℚ) ∨
      (n : ℚ) < -(9223372036854775808 : ℚ)) := by
    push_neg
    constructor
    · calc (n : ℚ) ≤ ((2 ^ 63 - 1 : Int) : ℚ) := by exact_mod_cast hhi
        _ ≤ (9223372036854775808 : ℚ) := by norm_num
    · calc -(9223372036854775808 : ℚ) = ((-(2 ^ 63) : Int) : ℚ) := by norm_num
        _ ≤ (n : ℚ) := by exact_mod_cast hlo
  constructor <;>
    simp [jrpc_parse_id, jesen_value_is_null, jesen_value_is_string,
      jesen_value_is_double, jesen_value_get_double, hrange, jrpc_trunc_intCast,
      jrpc_doubles_equal_self, jesenrpc_id_set_number]

/-- Facts guaranteed by a successful request validation. -/
theorem jesenrpc_request_validate_ok (request : jesenrpc_request_t)
    (h : jesenrpc_request_validate request = .ok) :
    request.jsonrpc = "2.0" ∧ 1 ≤ request.method_name.length ∧
    request.method_name.length ≤ 256 ∧
    (∀ p, request.params = some p →
      (jesen_value_is_array p ∨ jesen_value_is_object p)) ∧
    (∀ s, request.id = .string s → 1 ≤ s.length) := by
  unfold jesenrpc_request_validate at h
  split_ifs at h with h1 h2 h3 h4
  refine ⟨not_not.mp h1, by omega, by omega, ?_, ?_⟩
  · intro p hp
    rw [hp] at h3
    simp at h3
    by_cases ha : jesen_value_is_array p = true
    · exact Or.inl ha
    · exact Or.inr (h3 (by simpa using ha))
  · intro s hs
    rw [hs] at h4
    simp at h4
    omega

/-- Facts guaranteed by a successful error-object validation. -/
theorem jesenrpc_error_object_validate_ok (error : jesenrpc_error_object_t)
    (h : jesenrpc_error_object_validate error = .ok) :
    1 ≤ error.message.length := by
  unfold jesenrpc_error_object_validate at h
  split_ifs at h with h1
  omega

/-- Facts guaranteed by a successful response validation. -/
theorem jesenrpc_response_validate_ok (response : jesenrpc_response_t)
    (h : jesenrpc_response_validate response = .ok) :
    response.jsonrpc = "2.0" ∧ response.id ≠ .none ∧
    (∀ s, response.id = .string s → 1 ≤ s.length) ∧
    ((response.result.isSome ∧ response.error.isNone) ∨
      (response.result.isNone ∧ response.error.isSome)) ∧
    (∀ e, response.error = some e → jesenrpc_error_object_validate e = .ok) := by
  unfold jesenrpc_response_validate at h
  split_ifs at h with h1 h2 h3 h4
  refine ⟨not_not.mp h1, ?_, ?_, ?_, ?_⟩
  · intro hid
    rw [hid] at h2
    exact h2 rfl
  · intro s hs
    rw [hs] at h3
    simp at h3
    omega
  · rcases hr : response.result with _ | r <;> rcases he : response.error with _ | e <;>
      rw [hr, he] at h4 <;> simp_all
  · intro e he
    rw [he] at h
    exact h


/-- Shape of a successfully built error node. -/
theorem jrpc_build_error_node_eq (error : jesenrpc_error_object_t)
    (h : jesenrpc_error_object_validate error = .ok) :
    jrpc_build_error_node error = (.ok, some (jrpc_error_node_shape error)) := by
  unfold jrpc_build_error_node
  rw [h]
  cases hd : error.data <;>
    simp [jesen_object_create, jesen_object_add_int32, jesen_object_add_string,
      jesen_node_assign_to, jrpc_error_node_shape, jrpc_data_fields, hd]

/-- Shape of a successfully built response node. -/
theorem jrpc_build_response_node_eq (response : jesenrpc_response_t)
    (h : jesenrpc_response_validate response = .ok) :
    jrpc_build_response_node response =
      (.ok, some (.obj ([("jsonrpc", .str "2.0")] ++ jrpc_id_fields response.id ++
        jrpc_result_error_fields response))) := by
  obtain ⟨-, -, -, hxor, herr⟩ := jesenrpc_response_validate_ok response h
  unfold jrpc_build_response_node
  rw [h]
  have hido : ∀ root : jesen_node_t, root = .obj [("jsonrpc", .str "2.0")] →
      jrpc_add_id_to_object root response.id =
        (.ok, .obj ([("jsonrpc", .str "2.0")] ++ jrpc_id_fields response.id)) := by
    intro root hroot
    subst hroot
    cases response.id with
    | none => simp [jrpc_add_id_to_object, jrpc_id_fields]
    | null => simp [jrpc_add_id_to_object, jesen_object_add_null, jrpc_id_fields]
    | string s => simp [jrpc_add_id_to_object, jesen_object_add_string, jrpc_id_fields]
    | number v =>
      by_cases h32 : -2147483648 ≤ v ∧ v ≤ 2147483647 <;>
        simp [jrpc_add_id_to_object, jesen_object_add_int32,
          jesen_object_add_double, jrpc_id_fields, h32]
  rcases hr : response.result with _ | r
  · rcases he : response.error with _ | e
    · rw [hr, he] at hxor
      simp at hxor
    · have hev : jesenrpc_error_object_validate e = .ok := herr e he
      simp [jesen_object_create, jesen_object_add_string, hido _ rfl, hr, he,
        jrpc_build_error_node_eq e hev, jesen_node_assign_to,
        jrpc_result_error_fields]
  · simp [jesen_object_create, jesen_object_add_string, hido _ rfl, hr,
      jesen_node_assign_to, jrpc_result_error_fields]



/-- Length of the protocol version string "2.0". -/
theorem jrpc_version_length : ("2.0" : String).length = 3 := rfl

/-- Round trip of an error object through build and parse: parsing the
built error node of a valid error object whose message fits the 4096-byte
read limit recovers the error object exactly. -/
theorem jrpc_parse_error_object_round_trip (error : jesenrpc_error_object_t)
    (hmsg : error.message.length ≤ 4096) :
    jrpc_parse_error_object (jrpc_error_node_shape error) = (.ok, some error) := by
  rcases error with ⟨code, msg, data⟩
  simp only at hmsg
  have hm : msg.length + 1 ≤ 4097 := by omega
  cases data <;>
    simp [jrpc_parse_error_object, jrpc_error_node_shape, jrpc_data_fields,
      jesen_value_is_object, jesen_object_get_int32, jesen_node_find,
      jrpc_read_object_string_with_limit, jesen_object_get_string,
      jesen_value_get_string, List.find?, hm]

/-- Evaluation of `jrpc_parse_request_node` on a built request object: the
id block is either absent (notification) or a single "id" field whose node
parses to the request's identifier. -/
theorem jrpc_parse_request_node_round_core (m : String) (hm : m.length + 1 ≤ 257)
    (params : Option jesen_node_t)
    (hpt : ∀ p, params = some p → (jesen_value_is_object p ∨ jesen_value_is_array p))
    (idf : List (String × jesen_node_t)) (id : jesenrpc_id_t)
    (hidf : (idf = [] ∧ id = .none) ∨
      (∃ idn, idf = [("id", idn)] ∧ jrpc_parse_id idn = (.ok, some id))) :
    jrpc_parse_request_node (.obj ([("jsonrpc", .str "2.0")] ++ idf ++
      [("method", .str m)] ++ jrpc_params_fields params)) =
    (.ok, some ⟨"2.0", id, m, params⟩) := by
  rcases hidf with ⟨hidf, hid⟩ | ⟨idn, hidf, hid⟩
  · subst hidf
    subst hid
    cases params with
    | none =>
      simp [jrpc_parse_request_node, jrpc_read_object_string_with_limit,
        jesen_object_get_string, jesen_node_find, jesen_value_get_string,
        jesen_value_is_object, List.find?, jrpc_params_fields,
        jrpc_version_length, hm]
    | some p =>
      have hp := hpt p rfl
      cases p <;>
        simp [jrpc_parse_request_node, jrpc_read_object_string_with_limit,
          jesen_object_get_string, jesen_node_find, jesen_value_get_string,
          jesen_value_is_object, jesen_value_is_array, List.find?,
          jrpc_params_fields, jrpc_version_length, hm] <;>
        simp_all [jesen_value_is_object, jesen_value_is_array]
  · subst hidf
    cases params with
    | none =>
      simp [jrpc_parse_request_node, jrpc_read_object_string_with_limit,
        jesen_object_get_string, jesen_node_find, jesen_value_get_string,
        jesen_value_is_object, List.find?, jrpc_params_fields,
        jrpc_version_length, hm, hid]
    | some p =>
      have hp := hpt p rfl
      cases p <;>
        simp [jrpc_parse_request_node, jrpc_read_object_string_with_limit,
          jesen_object_get_string, jesen_node_find, jesen_value_get_string,
          jesen_value_is_object, jesen_value_is_array, List.find?,
          jrpc_params_fields, jrpc_version_length, hm, hid] <;>
        simp_all [jesen_value_is_object, jesen_value_is_array]


/-- Evaluation of `jrpc_parse_response_node` on a built response object: the
"id" field parses to the response's identifier and the payload block is
either a "result" field or an "error" field whose node parses back. -/
theorem jrpc_parse_response_node_round_core (idn : jesen_node_t)
    (id : jesenrpc_id_t) (hid : jrpc_parse_id idn = (.ok, some id))
    (ref : List (String × jesen_node_t)) (result : Option jesen_node_t)
    (error : Option jesenrpc_error_object_t)
    (href : (∃ r, ref = [("result", r)] ∧ result = some r ∧ error = Option.none) ∨
      (∃ en e, ref = [("error", en)] ∧ jrpc_parse_error_object en = (.ok, some e) ∧
        result = Option.none ∧ error = some e)) :
    jrpc_parse_response_node (.obj ([("jsonrpc", .str "2.0"), ("id", idn)] ++ ref)) =
    (.ok, some ⟨"2.0", id, result, error⟩) := by
  rcases href with ⟨r, hr, hres, herr⟩ | ⟨en, e, hr, hpe, hres, herr⟩
  · subst hr
    subst hres
    subst herr
    simp [jrpc_parse_response_node, jrpc_read_object_string_with_limit,
      jesen_object_get_string, jesen_node_find, jesen_value_get_string,
      jesen_value_is_object, List.find?, jrpc_version_length, hid]
  · subst hr
    subst hres
    subst herr
    simp [jrpc_parse_response_node, jrpc_read_object_string_with_limit,
      jesen_object_get_string, jesen_node_find, jesen_value_get_string,
      jesen_value_is_object, List.find?, jrpc_version_length, hid, hpe]

/-- Canonical node and parse result for each non-absent identifier kind,
under the string-length, int64-range and double-exactness side
conditions. -/
theorem jrpc_id_fields_parse (id : jesenrpc_id_t) (hne : id ≠ .none)
    (hstr : ∀ s, id = .string s → s.length ≤ 8191)
    (hnum : ∀ v, id = .number v → -(2 ^ 63) ≤ v ∧ v ≤ 2 ^ 63 - 1)
    (hexa : ∀ v, id = .number v → jrpc_double_of_int v = v) :
    ∃ idn, jrpc_id_fields id = [("id", idn)] ∧
      jrpc_parse_id idn = (.ok, some id) := by
  cases hi : id with
  | none => exact absurd hi hne
  | null => exact ⟨.null, by simp [jrpc_id_fields], jrpc_parse_id_null⟩
  | string s =>
    exact ⟨.str s, by simp [jrpc_id_fields], jrpc_parse_id_str s (hstr s hi)⟩
  | number v =>
    obtain ⟨hlo, hhi⟩ := hnum v hi
    by_cases h32 : -2147483648 ≤ v ∧ v ≤ 2147483647
    · exact ⟨.i32 v, by simp [jrpc_id_fields, h32], (jrpc_parse_id_int v hlo hhi).2⟩
    · exact ⟨.numd (v : ℚ), by simp [jrpc_id_fields, h32, hexa v hi],
        (jrpc_parse_id_int v hlo hhi).1⟩

/-- Round trip of a response through build and parse at the node level,
under the bounded-read side conditions. -/
theorem jrpc_parse_response_node_round_trip (response : jesenrpc_response_t)
    (hv : jesenrpc_response_validate response = .ok)
    (hstr : ∀ s, response.id = .string s → s.length ≤ 8191)
    (hnum : ∀ v, response.id = .number v → -(2 ^ 63) ≤ v ∧ v ≤ 2 ^ 63 - 1)
    (hexa : ∀ v, response.id = .number v → jrpc_double_of_int v = v)
    (hmsg : ∀ e, response.error = some e → e.message.length ≤ 4096) :
    jrpc_parse_response_node (.obj ([("jsonrpc", .str "2.0")] ++
      jrpc_id_fields response.id ++ jrpc_result_error_fields response)) =
    (.ok, some response) := by
  obtain ⟨hjv, hidne, -, hxor, -⟩ := jesenrpc_response_validate_ok response hv
  obtain ⟨idn, hidf, hid⟩ :=
    jrpc_id_fields_parse response.id hidne hstr hnum hexa
  rw [hidf]
  rcases hxor with ⟨hrs, hes⟩ | ⟨hrn, hes⟩
  · obtain ⟨r, hr⟩ := Option.isSome_iff_exists.mp hrs
    have hen : response.error = Option.none := by
      cases he : response.error
      · rfl
      · rw [he] at hes
        simp at hes
    have hshape : jrpc_result_error_fields response = [("result", r)] := by
      simp [jrpc_result_error_fields, hr]
    rw [hshape]
    have hresp : response = ⟨"2.0", response.id, some r, Option.none⟩ := by
      rcases response with ⟨jv, id, res, err⟩
      simp_all
    rw [show (.ok, some response) =
        ((.ok, some (⟨"2.0", response.id, some r, Option.none⟩ : jesenrpc_response_t)) :
          jesenrpc_err_t × Option jesenrpc_response_t) from by rw [← hresp]]
    exact jrpc_parse_response_node_round_core idn response.id hid
      [("result", r)] (some r) Option.none (Or.inl ⟨r, rfl, rfl, rfl⟩)
  · obtain ⟨e, he⟩ := Option.isSome_iff_exists.mp hes
    have hrn2 : response.result = Option.none := by
      cases hr : response.result
      · rfl
      · rw [hr] at hrn
        simp at hrn
    have hpe := jrpc_parse_error_object_round_trip e (hmsg e he)
    have hshape : jrpc_result_error_fields response =
        [("error", jrpc_error_node_shape e)] := by
      simp [jrpc_result_error_fields, hrn2, he]
    rw [hshape]
    have hresp : response = ⟨"2.0", response.id, Option.none, some e⟩ := by
      rcases response with ⟨jv, id, res, err⟩
      simp_all
    rw [show (.ok, some response) =
        ((.ok, some (⟨"2.0", response.id, Option.none, some e⟩ : jesenrpc_response_t)) :
          jesenrpc_err_t × Option jesenrpc_response_t) from by rw [← hresp]]
    exact jrpc_parse_response_node_round_core idn response.id hid
      [("error", jrpc_error_node_shape e)] Option.none (some e)
      (Or.inr ⟨jrpc_error_node_shape e, e, rfl, hpe, rfl, rfl⟩)


/-- Shape of a successfully built request node: building a valid request
always succeeds and produces the object with the version field, the id
fields, the method field, and the assigned params node. -/
theorem jrpc_build_request_node_eq (request : jesenrpc_request_t)
    (h : jesenrpc_request_validate request = .ok) :
    jrpc_build_request_node request =
      (.ok, some (.obj ([("jsonrpc", .str "2.0")] ++ jrpc_id_fields request.id ++
        [("method", .str request.method_name)] ++ jrpc_params_fields request.params))) := by
  unfold jrpc_build_request_node
  rw [h]
  cases hid : request.id with
  | none =>
    cases hp : request.params <;>
      simp [jesen_object_create, jesen_object_add_string, jrpc_add_id_to_object,
        jesen_node_assign_to, jrpc_id_fields, jrpc_params_fields]
  | null =>
    cases hp : request.params <;>
      simp [jesen_object_create, jesen_object_add_string, jrpc_add_id_to_object,
        jesen_object_add_null, jesen_node_assign_to, jrpc_id_fields, jrpc_params_fields]
  | string s =>
    cases hp : request.params <;>
      simp [jesen_object_create, jesen_object_add_string, jrpc_add_id_to_object,
        jesen_node_assign_to, jrpc_id_fields, jrpc_params_fields]
  | number v =>
    by_cases h32 : -2147483648 ≤ v ∧ v ≤ 2147483647 <;>
      cases hp : request.params <;>
        simp [jesen_object_create, jesen_object_add_string, jrpc_add_id_to_object,
          jesen_object_add_int32, jesen_object_add_double, jesen_node_assign_to,
          jrpc_id_fields, jrpc_params_fields, h32]

/-- Detaching the params child from a built request node removes the only
"params" field, so a subsequent lookup reports not-found. -/
theorem jrpc_built_request_detach_params (id : jesenrpc_id_t) (m : String)
    (p : jesen_node_t) :
    (jesen_node_find
      (jesen_node_detach_from
        (.obj ([("jsonrpc", .str "2.0")] ++ jrpc_id_fields id ++
          [("method", .str m)] ++ jrpc_params_fields (some p)))
        "params") "params").1 = .jesen_not_found := by
  cases id with
  | none =>
    simp [jrpc_id_fields, jrpc_params_fields, jesen_node_detach_from,
      jesen_node_find, List.eraseP, List.find?]
  | null =>
    simp [jrpc_id_fields, jrpc_params_fields, jesen_node_detach_from,
      jesen_node_find, List.eraseP, List.find?]
  | string s =>
    simp [jrpc_id_fields, jrpc_params_fields, jesen_node_detach_from,
      jesen_node_find, List.eraseP, List.find?]
  | number v =>
    by_cases h32 : -2147483648 ≤ v ∧ v ≤ 2147483647 <;>
      simp [jrpc_id_fields, jrpc_params_fields, jesen_node_detach_from,
        jesen_node_find, List.eraseP, List.find?, h32]

/-- Claim C7: serializing a valid Request (with a large-enough buffer, so
the first call succeeds) leaves the Request — including its params node —
in its original state, and a second serialize call on the returned Request
is identical to the first: it succeeds and produces the same output text. -/
theorem claim_C7_serialize_idempotent (request : jesenrpc_request_t)
    (out_buf_len : Nat)
    (h : (jesenrpc_request_serialize request out_buf_len).1 = .ok) :
    (jesenrpc_request_serialize request out_buf_len).2.2 = request ∧
    jesenrpc_request_serialize
        ((jesenrpc_request_serialize request out_buf_len).2.2) out_buf_len =
      jesenrpc_request_serialize request out_buf_len := by
  have hpres : (jesenrpc_request_serialize request out_buf_len).2.2 = request := by
    unfold jesenrpc_request_serialize
    rcases hb : jrpc_build_request_node request with ⟨rc, onode⟩
    cases onode with
    | none => rfl
    | some node =>
      simp only
      have hv : jesenrpc_request_validate request = .ok := by
        by_contra hnv
        unfold jrpc_build_request_node at hb
        split at hb
        · exact hnv (by assumption)
        · simp at hb
      have hshape := jrpc_build_request_node_eq request hv
      rw [hb] at hshape
      simp only [Prod.mk.injEq, Option.some.injEq] at hshape
      obtain ⟨-, hnode⟩ := hshape
      subst hnode
      cases hp : request.params with
      | none => simp [hp]
      | some p =>
        have hfind := jrpc_built_request_detach_params request.id
          request.method_name p
        simp only [List.cons_append, List.nil_append, List.append_assoc] at hfind
        simp [hp, hfind]
  exact ⟨hpres, by rw [hpres]⟩

/-- Witness for C7: a concrete request with params, serialized twice into a
200-byte buffer. -/
theorem claim_C7_witness :
    (jesenrpc_request_serialize ⟨"2.0", .null, "ping", some (.obj [])⟩ 200).2.2 =
      (⟨"2.0", .null, "ping", some (.obj [])⟩ : jesenrpc_request_t) ∧
    jesenrpc_request_serialize
        ((jesenrpc_request_serialize ⟨"2.0", .null, "ping", some (.obj [])⟩ 200).2.2) 200 =
      jesenrpc_request_serialize ⟨"2.0", .null, "ping", some (.obj [])⟩ 200 :=
  claim_C7_serialize_idempotent ⟨"2.0", .null, "ping", some (.obj [])⟩ 200 (by decide)

/-- Claim C1 (amended): for every valid Request, Response, or Error Object
within the parser's bounded-read limits and the builder's numeric fidelity
— string ids of at most 8191 bytes, error messages of at most 4096 bytes,
numeric ids in the int64 range (which the C type guarantees) that are
exactly representable as an IEEE-754 double (any magnitude up to 2^53 is) —
building the entity into a tree, serializing it to text, and parsing that
text back yields the entity exactly: same method name, identifier kind and
value, params/result/error contents, and notification status. -/
theorem claim_C1_round_trip_within_read_limits :
    (∀ (request : jesenrpc_request_t) (out_buf_len : Nat) (t : jesen_text_t)
        (req1 : jesenrpc_request_t),
      (∀ s, request.id = .string s → s.length ≤ 8191) →
      (∀ v, request.id = .number v → -(2 ^ 63) ≤ v ∧ v ≤ 2 ^ 63 - 1) →
      (∀ v, request.id = .number v → jrpc_double_of_int v = v) →
      jesenrpc_request_serialize request out_buf_len = (.ok, some t, req1) →
      jesenrpc_request_parse t = (.ok, some request)) ∧
    (∀ (response : jesenrpc_response_t) (out_buf_len : Nat) (t : jesen_text_t)
        (resp1 : jesenrpc_response_t),
      (∀ s, response.id = .string s → s.length ≤ 8191) →
      (∀ v, response.id = .number v → -(2 ^ 63) ≤ v ∧ v ≤ 2 ^ 63 - 1) →
      (∀ v, response.id = .number v → jrpc_double_of_int v = v) →
      (∀ e, response.error = some e → e.message.length ≤ 4096) →
      jesenrpc_response_serialize response out_buf_len = (.ok, some t, resp1) →
      jesenrpc_response_parse t = (.ok, some response)) ∧
    (∀ (error : jesenrpc_error_object_t) (node : jesen_node_t),
      error.message.length ≤ 4096 →
      jrpc_build_error_node error = (.ok, some node) →
      jrpc_parse_error_object node = (.ok, some error)) := by
  refine ⟨?_, ?_, ?_⟩
  · intro request n t req1 hstr hnum hexa hser
    unfold jesenrpc_request_serialize at hser
    rcases hb : jrpc_build_request_node request with ⟨rc, onode⟩
    rw [hb] at hser
    cases onode with
    | none => simp at hser
    | some node =>
      simp only [Prod.mk.injEq] at hser
      obtain ⟨-, hst, -⟩ := hser
      have hv : jesenrpc_request_validate request = .ok := by
        by_contra hnv
        unfold jrpc_build_request_node at hb
        split at hb
        · exact hnv (by assumption)
        · simp at hb
      have hnode := jrpc_build_request_node_eq request hv
      rw [hb] at hnode
      simp only [Prod.mk.injEq, Option.some.injEq] at hnode
      obtain ⟨-, hnodeeq⟩ := hnode
      have htt : t.tree = node := by
        unfold jrpc_serialize_node jesen_serialize at hst
        by_cases hn : n = 0
        · rw [if_pos hn] at hst
          simp at hst
        · rw [if_neg hn] at hst
          by_cases hfit : (jesen_render node).length + 1 ≤ n
          · rw [if_pos hfit] at hst
            simp only [Option.some.injEq] at hst
            rw [← hst]
          · rw [if_neg hfit] at hst
            simp at hst
      obtain ⟨hjv, hm1, hm2, hpt, -⟩ := jesenrpc_request_validate_ok request hv
      have hmlen : request.method_name.length + 1 ≤ 257 := by omega
      have hpt2 : ∀ p, request.params = some p →
          (jesen_value_is_object p ∨ jesen_value_is_array p) :=
        fun p hp => (hpt p hp).symm
      have hidf : (jrpc_id_fields request.id = [] ∧ request.id = .none) ∨
          (∃ idn, jrpc_id_fields request.id = [("id", idn)] ∧
            jrpc_parse_id idn = (.ok, some request.id)) := by
        by_cases hin : request.id = .none
        · exact Or.inl ⟨by simp [hin, jrpc_id_fields], hin⟩
        · exact Or.inr (jrpc_id_fields_parse request.id hin hstr hnum hexa)
      rcases hidf with ⟨hif0, hin⟩ | ⟨idn, hif1, hid⟩
      · have hcore := jrpc_parse_request_node_round_core request.method_name hmlen
          request.params hpt2 [] .none (Or.inl ⟨rfl, rfl⟩)
        have hreq : request =
            (⟨"2.0", .none, request.method_name, request.params⟩ :
              jesenrpc_request_t) := by
          rcases request with ⟨jv, id, m, params⟩
          simp_all
        unfold jesenrpc_request_parse jrpc_parse_buffer_as_node jesen_parse
        simp only
        rw [htt, hnodeeq, hif0, hreq]
        exact hcore
      · have hcore := jrpc_parse_request_node_round_core request.method_name hmlen
          request.params hpt2 [("id", idn)] request.id (Or.inr ⟨idn, rfl, hid⟩)
        have hreq : request =
            (⟨"2.0", request.id, request.method_name, request.params⟩ :
              jesenrpc_request_t) := by
          rcases request with ⟨jv, id, m, params⟩
          simp_all
        unfold jesenrpc_request_parse jrpc_parse_buffer_as_node jesen_parse
        simp only
        rw [htt, hnodeeq, hif1]
        rw [show ((.ok, some request) :
            jesenrpc_err_t × Option jesenrpc_request_t) =
          (.ok, some (⟨"2.0", request.id, request.method_name, request.params⟩ :
            jesenrpc_request_t)) from by rw [← hreq]]
        exact hcore
  · intro response n t resp1 hstr hnum hexa hmsg hser
    unfold jesenrpc_response_serialize at hser
    rcases hb : jrpc_build_response_node response with ⟨rc, onode⟩
    rw [hb] at hser
    cases onode with
    | none => simp at hser
    | some node =>
      simp only [Prod.mk.injEq] at hser
      obtain ⟨-, hst, -⟩ := hser
      have hv : jesenrpc_response_validate response = .ok := by
        by_contra hnv
        unfold jrpc_build_response_node at hb
        split at hb
        · exact hnv (by assumption)
        · simp at hb
      have hnode := jrpc_build_response_node_eq response hv
      rw [hb] at hnode
      simp only [Prod.mk.injEq, Option.some.injEq] at hnode
      obtain ⟨-, hnodeeq⟩ := hnode
      have htt : t.tree = node := by
        unfold jrpc_serialize_node jesen_serialize at hst
        by_cases hn : n = 0
        · rw [if_pos hn] at hst
          simp at hst
        · rw [if_neg hn] at hst
          by_cases hfit : (jesen_render node).length + 1 ≤ n
          · rw [if_pos hfit] at hst
            simp only [Option.some.injEq] at hst
            rw [← hst]
          · rw [if_neg hfit] at hst
            simp at hst
      have hround :=
        jrpc_parse_response_node_round_trip response hv hstr hnum hexa hmsg
      unfold jesenrpc_response_parse jrpc_parse_buffer_as_node jesen_parse
      simp only
      rw [htt, hnodeeq]
      exact hround
  · intro error node hmsg hb
    have hv : jesenrpc_error_object_validate error = .ok := by
      by_contra hnv
      unfold jrpc_build_error_node at hb
      split at hb
      · exact hnv (by assumption)
      · simp at hb
    have hnode := jrpc_build_error_node_eq error hv
    rw [hb] at hnode
    simp only [Prod.mk.injEq, Option.some.injEq] at hnode
    obtain ⟨-, hnodeeq⟩ := hnode
    rw [hnodeeq]
    exact jrpc_parse_error_object_round_trip error hmsg


/-- Witness for C1: a concrete request (null id, object params), a concrete
error response, and a concrete error object round-trip exactly. -/
theorem claim_C1_witness :
    jesenrpc_request_parse
        ⟨jesen_render (.obj [("jsonrpc", .str "2.0"), ("id", .null),
            ("method", .str "ping"), ("params", .obj [])]),
          .obj [("jsonrpc", .str "2.0"), ("id", .null),
            ("method", .str "ping"), ("params", .obj [])]⟩ =
      (.ok, some ⟨"2.0", .null, "ping", some (.obj [])⟩) ∧
    jesenrpc_response_parse
        ⟨jesen_render (.obj [("jsonrpc", .str "2.0"), ("id", .null),
            ("error", .obj [("code", .i32 (-32603)), ("message", .str "oops")])]),
          .obj [("jsonrpc", .str "2.0"), ("id", .null),
            ("error", .obj [("code", .i32 (-32603)), ("message", .str "oops")])]⟩ =
      (.ok, some ⟨"2.0", .null, Option.none,
        some ⟨-32603, "oops", Option.none⟩⟩) ∧
    jrpc_parse_error_object
        (.obj [("code", .i32 (-32603)), ("message", .str "oops")]) =
      (.ok, some ⟨-32603, "oops", Option.none⟩) := by
  refine ⟨?_, ?_, ?_⟩
  · exact claim_C1_round_trip_within_read_limits.1
      ⟨"2.0", .null, "ping", some (.obj [])⟩ 200 _
      ⟨"2.0", .null, "ping", some (.obj [])⟩
      (fun s h => nomatch h) (fun v h => nomatch h) (fun v h => nomatch h) rfl
  · exact claim_C1_round_trip_within_read_limits.2.1
      ⟨"2.0", .null, Option.none, some ⟨-32603, "oops", Option.none⟩⟩ 300 _
      ⟨"2.0", .null, Option.none, some ⟨-32603, "oops", Option.none⟩⟩
      (fun s h => nomatch h) (fun v h => nomatch h) (fun v h => nomatch h)
      (fun e he => by cases he; decide) rfl
  · exact claim_C1_round_trip_within_read_limits.2.2
      ⟨-32603, "oops", Option.none⟩ _ (by decide) rfl



/-- Length of a replicated-character string. -/
theorem jrpc_replicate_length (n : Nat) (c : Char) :
    (String.mk (List.replicate n c)).length = n := by
  show (List.replicate n c).length = n
  exact List.length_replicate n c

/-- Validity of the over-long-id counterexample request. -/
theorem claim_C1_cx_req_valid (bigs : String) (hlen : bigs.length = 8192) :
    jesenrpc_request_validate ⟨"2.0", .string bigs, "m", Option.none⟩ = .ok := by
  simp [jesenrpc_request_validate, hlen]
  decide

/-- Serialization of the over-long-id counterexample request succeeds and
produces the canonical text. -/
theorem claim_C1_cx_req_serialize (bigs : String) (hlen : bigs.length = 8192) :
    jesenrpc_request_serialize ⟨"2.0", .string bigs, "m", Option.none⟩ 9000 =
      (.ok, some ⟨jesen_render (.obj [("jsonrpc", .str "2.0"),
          ("id", .str bigs), ("method", .str "m")]),
        .obj [("jsonrpc", .str "2.0"), ("id", .str bigs), ("method", .str "m")]⟩,
       ⟨"2.0", .string bigs, "m", Option.none⟩) := by
  have hbreq := jrpc_build_request_node_eq _ (claim_C1_cx_req_valid bigs hlen)
  simp only [jrpc_id_fields, jrpc_params_fields, List.append_nil,
    List.cons_append, List.nil_append] at hbreq
  have hfitreq : (jesen_render (.obj [("jsonrpc", .str "2.0"),
      ("id", .str bigs), ("method", .str "m")])).length + 1 ≤ 9000 := by
    simp [jesen_render, jesen_render_fields, String.length_append, hlen]
    decide
  unfold jesenrpc_request_serialize
  rw [hbreq]
  simp [jrpc_serialize_node, jesen_serialize, hfitreq]

/-- Evaluation of `jrpc_parse_request_node` on a well-formed request object
whose "id" field fails to parse: the id failure code is propagated. -/
theorem jrpc_parse_request_node_id_fail (m : String) (hm : m.length + 1 ≤ 257)
    (idn : jesen_node_t) (rc : jesenrpc_err_t)
    (hrc : jrpc_parse_id idn = (rc, Option.none)) :
    jrpc_parse_request_node (.obj [("jsonrpc", .str "2.0"),
      ("id", idn), ("method", .str m)]) = (rc, Option.none) := by
  simp [jrpc_parse_request_node, jrpc_read_object_string_with_limit,
    jesen_object_get_string, jesen_node_find, jesen_value_get_string,
    jesen_value_is_object, List.find?, jrpc_version_length, hm, hrc]

/-- Identifier classification of an over-long string id node: the bounded
growing-buffer copy gives up once the 8192-byte cap cannot hold the string
and its terminator. -/
theorem claim_C1_cx_big_id_fails (bigs : String) (hlen : bigs.length = 8192) :
    jrpc_parse_id (.str bigs) = (.rpc_invalid_args, Option.none) := by
  simp [jrpc_parse_id, jesen_value_is_null, jesen_value_is_string,
    jrpc_copy_string_value_fail bigs (by omega)]

/-- Parsing the built node of the over-long-id counterexample request fails
with InvalidArgs: the growing-buffer id copy gives up at 8191 bytes. -/
theorem claim_C1_cx_req_parse_fails (bigs : String) (hlen : bigs.length = 8192) :
    (jrpc_parse_request_node (.obj [("jsonrpc", .str "2.0"),
      ("id", .str bigs), ("method", .str "m")])).1 = .rpc_invalid_args := by
  rw [jrpc_parse_request_node_id_fail "m" (by decide) (.str bigs)
    .rpc_invalid_args (claim_C1_cx_big_id_fails bigs hlen)]

/-- Validity of the over-long-message counterexample response. -/
theorem claim_C1_cx_resp_valid (bigm : String) (hlen2 : bigm.length = 4097) :
    jesenrpc_response_validate
      ⟨"2.0", .null, Option.none, some ⟨-1, bigm, Option.none⟩⟩ = .ok := by
  simp [jesenrpc_response_validate, jesenrpc_error_object_validate, hlen2]

/-- Serialization of the over-long-message counterexample response
succeeds and produces the canonical text. -/
theorem claim_C1_cx_resp_serialize (bigm : String) (hlen2 : bigm.length = 4097) :
    jesenrpc_response_serialize
      ⟨"2.0", .null, Option.none, some ⟨-1, bigm, Option.none⟩⟩ 9000 =
      (.ok, some ⟨jesen_render (.obj [("jsonrpc", .str "2.0"), ("id", .null),
          ("error", .obj [("code", .i32 (-1)), ("message", .str bigm)])]),
        .obj [("jsonrpc", .str "2.0"), ("id", .null),
          ("error", .obj [("code", .i32 (-1)), ("message", .str bigm)])]⟩,
       ⟨"2.0", .null, Option.none, some ⟨-1, bigm, Option.none⟩⟩) := by
  have hbresp := jrpc_build_response_node_eq _ (claim_C1_cx_resp_valid bigm hlen2)
  simp only [jrpc_id_fields, jrpc_result_error_fields, jrpc_error_node_shape,
    jrpc_data_fields, List.append_nil, List.cons_append, List.nil_append]
    at hbresp
  have hfitresp : (jesen_render (.obj [("jsonrpc", .str "2.0"), ("id", .null),
      ("error", .obj [("code", .i32 (-1)),
        ("message", .str bigm)])])).length + 1 ≤ 9000 := by
    simp [jesen_render, jesen_render_fields, String.length_append, hlen2]
    decide
  unfold jesenrpc_response_serialize
  rw [hbresp]
  simp [jrpc_serialize_node, jesen_serialize, hfitresp]

/-- Parsing the built node of the over-long-message counterexample
response fails with Validation: the bounded message read admits at most
4096 bytes. -/
theorem claim_C1_cx_resp_parse_fails (bigm : String)
    (hlen2 : bigm.length = 4097) :
    (jrpc_parse_response_node (.obj [("jsonrpc", .str "2.0"), ("id", .null),
      ("error", .obj [("code", .i32 (-1)),
        ("message", .str bigm)])])).1 = .rpc_validation := by
  have hmfail : ¬ (bigm.length + 1 ≤ 4097) := by omega
  simp [jrpc_parse_response_node, jrpc_parse_error_object,
    jrpc_read_object_string_with_limit, jesen_object_get_string,
    jesen_object_get_int32, jesen_node_find, jesen_value_get_string,
    jesen_value_is_object, List.find?, jrpc_version_length,
    jrpc_parse_id_null, hmfail]

/-- Validity of the 2^53+1 numeric-id counterexample request. -/
theorem claim_C1_cx_num_valid :
    jesenrpc_request_validate
      ⟨"2.0", .number 9007199254740993, "m", Option.none⟩ = .ok := by
  simp [jesenrpc_request_validate]
  decide

/-- Rounding of the 2^53+1 identifier by the build-time double cast: the
value is exactly halfway between the representable neighbours 2^53 and
2^53+2 and the tie goes to the even significand, 2^53. -/
theorem claim_C1_cx_num_cast :
    jrpc_double_of_int 9007199254740993 = 9007199254740992 := by decide

/-- Id fields of the 2^53+1 identifier: outside the int32 range, so it is
stored as a double field already rounded to 2^53. -/
theorem claim_C1_cx_num_fields :
    jrpc_id_fields (.number 9007199254740993) =
      [("id", .numd ((9007199254740992 : Int) : ℚ))] := by
  simp only [jrpc_id_fields]
  rw [if_neg (by decide), claim_C1_cx_num_cast]

/-- Serialization of the 2^53+1 counterexample request succeeds (with a
buffer one byte longer than the rendering) and stores the rounded double
identifier in the produced tree. -/
theorem claim_C1_cx_num_serialize :
    jesenrpc_request_serialize
      ⟨"2.0", .number 9007199254740993, "m", Option.none⟩
      ((jesen_render (.obj [("jsonrpc", .str "2.0"),
        ("id", .numd ((9007199254740992 : Int) : ℚ)),
        ("method", .str "m")])).length + 1) =
    (.ok, some ⟨jesen_render (.obj [("jsonrpc", .str "2.0"),
        ("id", .numd ((9007199254740992 : Int) : ℚ)), ("method", .str "m")]),
      .obj [("jsonrpc", .str "2.0"),
        ("id", .numd ((9007199254740992 : Int) : ℚ)), ("method", .str "m")]⟩,
     ⟨"2.0", .number 9007199254740993, "m", Option.none⟩) := by
  have hbreq := jrpc_build_request_node_eq _ claim_C1_cx_num_valid
  simp only [claim_C1_cx_num_fields, jrpc_params_fields, List.append_nil,
    List.cons_append, List.nil_append] at hbreq
  unfold jesenrpc_request_serialize
  rw [hbreq]
  simp [jrpc_serialize_node, jesen_serialize]

/-- Parsing the built node of the 2^53+1 counterexample request succeeds
but yields the rounded identifier 2^53. -/
theorem claim_C1_cx_num_parse :
    jrpc_parse_request_node (.obj [("jsonrpc", .str "2.0"),
      ("id", .numd ((9007199254740992 : Int) : ℚ)), ("method", .str "m")]) =
    (.ok, some ⟨"2.0", .number 9007199254740992, "m", Option.none⟩) := by
  have h := jrpc_parse_request_node_round_core "m" (by decide) Option.none
    (fun p hp => by cases hp)
    [("id", .numd ((9007199254740992 : Int) : ℚ))] (.number 9007199254740992)
    (Or.inr ⟨.numd ((9007199254740992 : Int) : ℚ), rfl,
      (jrpc_parse_id_int 9007199254740992 (by norm_num) (by norm_num)).1⟩)
  simpa [jrpc_params_fields] using h

/-- Counterexample to C1 as stated: a valid Request whose string id has
8192 bytes and a valid Response whose error message has 4097 bytes both
build and serialize successfully but fail to parse back (the bounded reads
give up at 8191 and 4096 bytes respectively), and a valid Request whose
numeric id is 2^53+1 serializes and parses back successfully but to a
different entity — the build-time double cast rounds the id to 2^53 — so
the round-trip claim over all valid entities is false. -/
theorem claim_C1_counterexample :
    jesenrpc_request_validate
        ⟨"2.0", .string (String.mk (List.replicate 8192 'a')), "m",
          Option.none⟩ = .ok ∧
    (jesenrpc_request_serialize
        ⟨"2.0", .string (String.mk (List.replicate 8192 'a')), "m",
          Option.none⟩ 9000).1 = .ok ∧
    (jesenrpc_request_parse
        (((jesenrpc_request_serialize
          ⟨"2.0", .string (String.mk (List.replicate 8192 'a')), "m",
            Option.none⟩ 9000).2.1).getD ⟨"", .null⟩)).1 = .rpc_invalid_args ∧
    jesenrpc_response_validate
        ⟨"2.0", .null, Option.none,
          some ⟨-1, String.mk (List.replicate 4097 'b'), Option.none⟩⟩ = .ok ∧
    (jesenrpc_response_serialize
        ⟨"2.0", .null, Option.none,
          some ⟨-1, String.mk (List.replicate 4097 'b'), Option.none⟩⟩
        9000).1 = .ok ∧
    (jesenrpc_response_parse
        (((jesenrpc_response_serialize
          ⟨"2.0", .null, Option.none,
            some ⟨-1, String.mk (List.replicate 4097 'b'), Option.none⟩⟩
          9000).2.1).getD ⟨"", .null⟩)).1 = .rpc_validation ∧
    jesenrpc_request_validate
        ⟨"2.0", .number 9007199254740993, "m", Option.none⟩ = .ok ∧
    (jesenrpc_request_serialize
        ⟨"2.0", .number 9007199254740993, "m", Option.none⟩
        ((jesen_render (.obj [("jsonrpc", .str "2.0"),
          ("id", .numd ((9007199254740992 : Int) : ℚ)),
          ("method", .str "m")])).length + 1)).1 = .ok ∧
    jesenrpc_request_parse
        (((jesenrpc_request_serialize
          ⟨"2.0", .number 9007199254740993, "m", Option.none⟩
          ((jesen_render (.obj [("jsonrpc", .str "2.0"),
            ("id", .numd ((9007199254740992 : Int) : ℚ)),
            ("method", .str "m")])).length + 1)).2.1).getD ⟨"", .null⟩) =
      (.ok, some ⟨"2.0", .number 9007199254740992, "m", Option.none⟩) ∧
    (⟨"2.0", .number 9007199254740992, "m", Option.none⟩ :
        jesenrpc_request_t) ≠
      ⟨"2.0", .number 9007199254740993, "m", Option.none⟩ := by
  have hlen := jrpc_replicate_length 8192 'a'
  have hlen2 := jrpc_replicate_length 4097 'b'
  refine ⟨claim_C1_cx_req_valid _ hlen, ?_, ?_,
    claim_C1_cx_resp_valid _ hlen2, ?_, ?_,
    claim_C1_cx_num_valid, ?_, ?_, ?_⟩
  · rw [claim_C1_cx_req_serialize _ hlen]
  · rw [claim_C1_cx_req_serialize _ hlen]
    unfold jesenrpc_request_parse jrpc_parse_buffer_as_node jesen_parse
    simpa using claim_C1_cx_req_parse_fails _ hlen
  · rw [claim_C1_cx_resp_serialize _ hlen2]
  · rw [claim_C1_cx_resp_serialize _ hlen2]
    unfold jesenrpc_response_parse jrpc_parse_buffer_as_node jesen_parse
    simpa using claim_C1_cx_resp_parse_fails _ hlen2
  · rw [claim_C1_cx_num_serialize]
  · rw [claim_C1_cx_num_serialize]
    unfold jesenrpc_request_parse jrpc_parse_buffer_as_node jesen_parse
    simpa using claim_C1_cx_num_parse
  · intro h
    injection h with h1 h2 h3 h4
    exact absurd h2 (by decide)

/-- Claim C3: on a Response where a result or an error is already set,
calling `set_result` or `set_error` (hence in either order) fails with
InvalidArgs and leaves the Response — result, error and identifier fields —
unchanged. -/
theorem claim_C3_response_setters_first_writer_wins
    (response : jesenrpc_response_t) (r : jesen_node_t) (e : jesenrpc_error_object_t)
    (h : response.result.isSome ∨ response.error.isSome) :
    jesenrpc_response_set_result response (some r) = (.rpc_invalid_args, response) ∧
    jesenrpc_response_set_error response (some e) = (.rpc_invalid_args, response) := by
  rcases h with h | h <;>
    exact ⟨by simp [jesenrpc_response_set_result, h],
           by simp [jesenrpc_response_set_error, h]⟩

/-- Witness for C3: a concrete response with a result already set rejects
both setters and is returned unchanged. -/
theorem claim_C3_witness :
    jesenrpc_response_set_result
        { jsonrpc := "2.0", id := .number 1, result := some .null, error := Option.none }
        (some .null) =
      (.rpc_invalid_args,
        { jsonrpc := "2.0", id := .number 1, result := some .null, error := Option.none }) ∧
    jesenrpc_response_set_error
        { jsonrpc := "2.0", id := .number 1, result := some .null, error := Option.none }
        (some { code := -32600, message := "bad", data := Option.none }) =
      (.rpc_invalid_args,
        { jsonrpc := "2.0", id := .number 1, result := some .null, error := Option.none }) :=
  claim_C3_response_setters_first_writer_wins _ _ _ (Or.inl rfl)

/-- Rollback behavior of the request-batch element loop: when the first `i`
elements materialize and element `i` fails, the loop propagates the failing
element's error, yields no items, and destroys the accumulated entities
followed by the `i` freshly materialized items. -/
theorem jrpc_request_batch_loop_rollback (elems : List jesen_node_t) :
    ∀ (acc : List jesenrpc_request_t) (i : Nat) (hi : i < elems.length),
      (∀ j (hj : j < i),
        (jrpc_parse_request_node (elems.get ⟨j, Nat.lt_trans hj hi⟩)).1 = .ok) →
      (jrpc_parse_request_node (elems.get ⟨i, hi⟩)).1 ≠ .ok →
      jrpc_parse_request_batch_loop elems acc =
        ((jrpc_parse_request_node (elems.get ⟨i, hi⟩)).1, [],
         acc.reverse ++
           (elems.take i).filterMap (fun e => (jrpc_parse_request_node e).2)) := by
  induction elems with
  | nil => intro acc i hi _ _; exact absurd hi (by simp)
  | cons e rest ih =>
    intro acc i hi hok hfail
    cases i with
    | zero =>
      have hfail0 : (jrpc_parse_request_node e).1 ≠ .ok := hfail
      rcases hp : jrpc_parse_request_node e with ⟨rc, oreq⟩
      rw [hp] at hfail0
      show jrpc_parse_request_batch_loop (e :: rest) acc =
        ((jrpc_parse_request_node e).1, [], acc.reverse ++ [])
      rw [hp]
      cases rc <;> simp_all [jrpc_parse_request_batch_loop, hp]
    | succ k =>
      have h0 : (jrpc_parse_request_node e).1 = .ok := hok 0 (Nat.succ_pos k)
      rcases hp : jrpc_parse_request_node e with ⟨rc, oreq⟩
      rw [hp] at h0
      have h0' : rc = .ok := h0
      subst h0'
      have hi' : k < rest.length := Nat.succ_lt_succ_iff.mp hi
      have hok' : ∀ j (hj : j < k),
          (jrpc_parse_request_node (rest.get ⟨j, Nat.lt_trans hj hi'⟩)).1 = .ok :=
        fun j hj => hok (j + 1) (Nat.succ_lt_succ hj)
      have hfail' : (jrpc_parse_request_node (rest.get ⟨k, hi'⟩)).1 ≠ .ok := hfail
      have hrec := ih (oreq.toList ++ acc) k hi' hok' hfail'
      have hstep : jrpc_parse_request_batch_loop (e :: rest) acc =
          jrpc_parse_request_batch_loop rest (oreq.toList ++ acc) := by
        simp only [jrpc_parse_request_batch_loop, hp]
      rw [hstep, hrec]
      have hget : (e :: rest).get ⟨k + 1, hi⟩ = rest.get ⟨k, hi'⟩ := rfl
      rw [hget]
      simp only [List.take_succ_cons, List.filterMap_cons, hp, List.reverse_append]
      cases oreq <;> simp

/-- Rollback behavior of the response-batch element loop, identical in form
to the request loop. -/
theorem jrpc_response_batch_loop_rollback (elems : List jesen_node_t) :
    ∀ (acc : List jesenrpc_response_t) (i : Nat) (hi : i < elems.length),
      (∀ j (hj : j < i),
        (jrpc_parse_response_node (elems.get ⟨j, Nat.lt_trans hj hi⟩)).1 = .ok) →
      (jrpc_parse_response_node (elems.get ⟨i, hi⟩)).1 ≠ .ok →
      jrpc_parse_response_batch_loop elems acc =
        ((jrpc_parse_response_node (elems.get ⟨i, hi⟩)).1, [],
         acc.reverse ++
           (elems.take i).filterMap (fun e => (jrpc_parse_response_node e).2)) := by
  induction elems with
  | nil => intro acc i hi _ _; exact absurd hi (by simp)
  | cons e rest ih =>
    intro acc i hi hok hfail
    cases i with
    | zero =>
      have hfail0 : (jrpc_parse_response_node e).1 ≠ .ok := hfail
      rcases hp : jrpc_parse_response_node e with ⟨rc, oresp⟩
      rw [hp] at hfail0
      show jrpc_parse_response_batch_loop (e :: rest) acc =
        ((jrpc_parse_response_node e).1, [], acc.reverse ++ [])
      rw [hp]
      cases rc <;> simp_all [jrpc_parse_response_batch_loop, hp]
    | succ k =>
      have h0 : (jrpc_parse_response_node e).1 = .ok := hok 0 (Nat.succ_pos k)
      rcases hp : jrpc_parse_response_node e with ⟨rc, oresp⟩
      rw [hp] at h0
      have h0' : rc = .ok := h0
      subst h0'
      have hi' : k < rest.length := Nat.succ_lt_succ_iff.mp hi
      have hok' : ∀ j (hj : j < k),
          (jrpc_parse_response_node (rest.get ⟨j, Nat.lt_trans hj hi'⟩)).1 = .ok :=
        fun j hj => hok (j + 1) (Nat.succ_lt_succ hj)
      have hfail' : (jrpc_parse_response_node (rest.get ⟨k, hi'⟩)).1 ≠ .ok := hfail
      have hrec := ih (oresp.toList ++ acc) k hi' hok' hfail'
      have hstep : jrpc_parse_response_batch_loop (e :: rest) acc =
          jrpc_parse_response_batch_loop rest (oresp.toList ++ acc) := by
        simp only [jrpc_parse_response_batch_loop, hp]
      rw [hstep, hrec]
      have hget : (e :: rest).get ⟨k + 1, hi⟩ = rest.get ⟨k, hi'⟩ := rfl
      rw [hget]
      simp only [List.take_succ_cons, List.filterMap_cons, hp, List.reverse_append]
      cases oresp <;> simp

/-- Claim C4: for either batch parse (requests or responses), when
materializing element `i` fails, every previously materialized item 0..i-1
is destroyed (the destroyed-entity list is exactly those items), the
element's error is propagated unchanged as the return value, and the output
batch is left empty (no items, count 0). -/
theorem claim_C4_batch_atomic_rollback (elems : List jesen_node_t) (i : Nat)
    (hi : i < elems.length) :
    ((∀ j (hj : j < i),
        (jrpc_parse_request_node (elems.get ⟨j, Nat.lt_trans hj hi⟩)).1 = .ok) →
      (jrpc_parse_request_node (elems.get ⟨i, hi⟩)).1 ≠ .ok →
      jrpc_parse_request_batch_from_node (.arr elems) =
        ((jrpc_parse_request_node (elems.get ⟨i, hi⟩)).1, [],
         (elems.take i).filterMap (fun e => (jrpc_parse_request_node e).2))) ∧
    ((∀ j (hj : j < i),
        (jrpc_parse_response_node (elems.get ⟨j, Nat.lt_trans hj hi⟩)).1 = .ok) →
      (jrpc_parse_response_node (elems.get ⟨i, hi⟩)).1 ≠ .ok →
      jrpc_parse_response_batch_from_node (.arr elems) =
        ((jrpc_parse_response_node (elems.get ⟨i, hi⟩)).1, [],
         (elems.take i).filterMap (fun e => (jrpc_parse_response_node e).2))) := by
  have hlen : ¬ (jesen_array_elems (.arr elems)).length = 0 := by
    simp only [jesen_array_elems]
    omega
  constructor <;> intro hok hfail
  · unfold jrpc_parse_request_batch_from_node
    rw [if_neg (by simp [jesen_value_is_array]), if_neg hlen]
    simpa using jrpc_request_batch_loop_rollback elems [] i hi hok hfail
  · unfold jrpc_parse_response_batch_from_node
    rw [if_neg (by simp [jesen_value_is_array]), if_neg hlen]
    simpa using jrpc_response_batch_loop_rollback elems [] i hi hok hfail

/-- Witness for C4: three-element batches whose third element is malformed
(missing "method" for the request batch, missing "id" for the response
batch) destroy the two materialized items and return the underlying error
with an empty output batch. -/
theorem claim_C4_witness :
    jrpc_parse_request_batch_from_node
        (.arr [.obj [("jsonrpc", .str "2.0"), ("method", .str "a")],
               .obj [("jsonrpc", .str "2.0"), ("method", .str "b")],
               .obj [("jsonrpc", .str "2.0")]]) =
      (.jesen_not_found, [],
       [⟨"2.0", .none, "a", Option.none⟩, ⟨"2.0", .none, "b", Option.none⟩]) ∧
    jrpc_parse_response_batch_from_node
        (.arr [.obj [("jsonrpc", .str "2.0"), ("id", .null), ("result", .jbool true)],
               .obj [("jsonrpc", .str "2.0"), ("id", .null), ("result", .jbool false)],
               .obj [("jsonrpc", .str "2.0")]]) =
      (.rpc_validation, [],
       [⟨"2.0", .null, some (.jbool true), Option.none⟩,
        ⟨"2.0", .null, some (.jbool false), Option.none⟩]) := by
  constructor
  · have h := (claim_C4_batch_atomic_rollback
      [.obj [("jsonrpc", .str "2.0"), ("method", .str "a")],
       .obj [("jsonrpc", .str "2.0"), ("method", .str "b")],
       .obj [("jsonrpc", .str "2.0")]] 2 (by decide)).1
      (by decide) (by decide)
    exact h.trans (by rfl)
  · have h := (claim_C4_batch_atomic_rollback
      [.obj [("jsonrpc", .str "2.0"), ("id", .null), ("result", .jbool true)],
       .obj [("jsonrpc", .str "2.0"), ("id", .null), ("result", .jbool false)],
       .obj [("jsonrpc", .str "2.0")]] 2 (by decide)).2
      (by decide) (by decide)
    exact h.trans (by rfl)

/-- Claim C5: per-object message-kind classification requires an object
(Validation otherwise); a "method" field together with "result" or "error"
is Validation; "method" alone yields the request kind; "result" or "error"
without "method" yields the response kind; none of the three fields is
Validation. -/
theorem claim_C5_detect_message_kind_from_object
    (object : jesen_node_t) (in_batch : Bool) :
    (¬ jesen_value_is_object object →
      jrpc_detect_message_kind_from_object object in_batch =
        (.rpc_validation, Option.none)) ∧
    (jesen_value_is_object object →
      ((jesen_node_find object "method").1 = .ok →
        ((jesen_node_find object "result").1 = .ok ∨
            (jesen_node_find object "error").1 = .ok →
          jrpc_detect_message_kind_from_object object in_batch =
            (.rpc_validation, Option.none)) ∧
        ((jesen_node_find object "result").1 ≠ .ok ∧
            (jesen_node_find object "error").1 ≠ .ok →
          jrpc_detect_message_kind_from_object object in_batch =
            (.ok, some (if in_batch then .request_batch else .request_single)))) ∧
      ((jesen_node_find object "method").1 ≠ .ok →
        ((jesen_node_find object "result").1 = .ok ∨
            (jesen_node_find object "error").1 = .ok →
          jrpc_detect_message_kind_from_object object in_batch =
            (.ok, some (if in_batch then .response_batch else .response_single))) ∧
        ((jesen_node_find object "result").1 ≠ .ok ∧
            (jesen_node_find object "error").1 ≠ .ok →
          jrpc_detect_message_kind_from_object object in_batch =
            (.rpc_validation, Option.none)))) := by
  refine ⟨fun h => by simp [jrpc_detect_message_kind_from_object, h],
    fun hobj => ⟨fun hm => ⟨fun hre => ?_, fun hnre => ?_⟩,
      fun hnm => ⟨fun hre => ?_, fun hnre => ?_⟩⟩⟩
  · rcases hre with h | h <;>
      simp [jrpc_detect_message_kind_from_object, hobj, hm, h]
  · obtain ⟨h1, h2⟩ := hnre
    simp [jrpc_detect_message_kind_from_object, hobj, hm, h1, h2]
  · rcases hre with h | h <;>
      simp [jrpc_detect_message_kind_from_object, hobj, hnm, h]
  · obtain ⟨h1, h2⟩ := hnre
    simp [jrpc_detect_message_kind_from_object, hobj, hnm, h1, h2]

/-- Witness for C5: concrete objects exercising each classification branch. -/
theorem claim_C5_witness :
    jrpc_detect_message_kind_from_object (.null) false =
      (.rpc_validation, Option.none) ∧
    jrpc_detect_message_kind_from_object
        (.obj [("method", .str "m"), ("result", .null)]) false =
      (.rpc_validation, Option.none) ∧
    jrpc_detect_message_kind_from_object (.obj [("method", .str "m")]) false =
      (.ok, some .request_single) ∧
    jrpc_detect_message_kind_from_object (.obj [("result", .null)]) true =
      (.ok, some .response_batch) ∧
    jrpc_detect_message_kind_from_object (.obj [("x", .null)]) false =
      (.rpc_validation, Option.none) := by
  refine ⟨(claim_C5_detect_message_kind_from_object .null false).1 (by decide),
    (((claim_C5_detect_message_kind_from_object _ false).2 (by decide)).1
      (by decide)).1 (Or.inl (by decide)),
    ?_, ?_, ?_⟩
  · exact (((claim_C5_detect_message_kind_from_object _ false).2 (by decide)).1
      (by decide)).2 ⟨by decide, by decide⟩
  · exact (((claim_C5_detect_message_kind_from_object _ true).2 (by decide)).2
      (by decide)).1 (Or.inl (by decide))
  · exact (((claim_C5_detect_message_kind_from_object _ false).2 (by decide)).2
      (by decide)).2 ⟨by decide, by decide⟩

/-- Claim C6: the top-level classifier rejects a zero-length array with
Validation, while both per-kind batch parse entry points accept it and
succeed with an empty batch (no items, count 0, nothing destroyed). -/
theorem claim_C6_empty_array_asymmetry :
    jrpc_detect_message_kind_from_node (.arr []) = (.rpc_validation, Option.none) ∧
    jrpc_parse_request_batch_from_node (.arr []) = (.ok, [], []) ∧
    jrpc_parse_response_batch_from_node (.arr []) = (.ok, [], []) :=
  ⟨rfl, rfl, rfl⟩

/-- Claim C8: a Request created without an identifier is a notification and
`response_create_for_request` on it fails with InvalidArgs, producing no
Response. -/
theorem claim_C8_notification_invariant (method_name : String)
    (req : jesenrpc_request_t)
    (h : jesenrpc_request_create method_name = (.ok, some req)) :
    jesenrpc_request_is_notification req = true ∧
    jesenrpc_response_create_for_request req = (.rpc_invalid_args, Option.none) := by
  unfold jesenrpc_request_create at h
  by_cases hc : method_name.length = 0 ∨ 256 < method_name.length
  · rw [if_pos (by omega)] at h
    exact absurd h (by simp)
  · rw [if_neg (by omega)] at h
    simp at h
    subst h
    exact ⟨rfl, rfl⟩

/-- Witness for C8: the concrete notification request "ping". -/
theorem claim_C8_witness :
    jesenrpc_request_is_notification
        { jsonrpc := "2.0", id := .none, method_name := "ping",
          params := Option.none } = true ∧
    jesenrpc_response_create_for_request
        { jsonrpc := "2.0", id := .none, method_name := "ping",
          params := Option.none } = (.rpc_invalid_args, Option.none) :=
  claim_C8_notification_invariant "ping" _ rfl

/-- Claim C9: `set_params` with a null params argument succeeds, destroys
any previously held params node (the destroyed-node list is exactly the old
params), and leaves the Request with no params. -/
theorem claim_C9_set_params_null_clears (request : jesenrpc_request_t) :
    jesenrpc_request_set_params request Option.none =
      (.ok, { request with params := Option.none }, request.params.toList) := by
  unfold jesenrpc_request_set_params
  cases h : request.params <;> simp [h, Option.toList]

/-- Claim C10: when an identifier is added to a message object being built,
a Number id inside the 32-bit signed range is stored as an int32 field and
a Number id outside it as a double field holding the double conversion of
the 64-bit integer. -/
theorem claim_C10_number_id_storage
    (fields : List (String × jesen_node_t)) (num : Int) :
    (-2147483648 ≤ num ∧ num ≤ 2147483647 →
      jrpc_add_id_to_object (.obj fields) (.number num) =
        (.ok, .obj (fields ++ [("id", .i32 num)]))) ∧
    (¬ (-2147483648 ≤ num ∧ num ≤ 2147483647) →
      jrpc_add_id_to_object (.obj fields) (.number num) =
        (.ok, .obj (fields ++ [("id", .numd (jrpc_double_of_int num : ℚ))]))) := by
  constructor <;> intro h <;>
    simp [jrpc_add_id_to_object, jesen_object_add_int32, jesen_object_add_double, h]

/-- Claim C2: parsing a numeric identifier node reads it as a double
value, rejects with Validation any value beyond the int64 bounds as seen by
the double comparison (`(double)INT64_MAX` is 2^63), rejects with
Validation any in-range value whose int64 cast does not reproduce it within
the 1e-10 tolerance — in particular the fractional id 1.5 — and accepts an
integer-exact value within the int64 range as a Number identifier holding
that integer. -/
theorem claim_C2_numeric_id_parsing (q : ℚ) :
    (q > (9223372036854775808 : ℚ) ∨ q < -(9223372036854775808 : ℚ) →
      jrpc_parse_id (.numd q) = (.rpc_validation, Option.none)) ∧
    (¬ (q > (9223372036854775808 : ℚ) ∨ q < -(9223372036854775808 : ℚ)) →
      ¬ jrpc_doubles_equal ((jrpc_trunc q : Int) : ℚ) q →
      jrpc_parse_id (.numd q) = (.rpc_validation, Option.none)) ∧
    jrpc_parse_id (.numd (3 / 2)) = (.rpc_validation, Option.none) ∧
    (∀ n : Int, -(2 ^ 63) ≤ n → n ≤ 2 ^ 63 - 1 →
      jrpc_parse_id (.numd (n : ℚ)) = (.ok, some (.number n))) := by
  refine ⟨fun h => ?_, fun h1 h2 => ?_, ?_, fun n hlo hhi => ?_⟩
  · simp [jrpc_parse_id, jesen_value_is_null, jesen_value_is_string,
      jesen_value_is_double, jesen_value_get_double, h]
  · simp [jrpc_parse_id, jesen_value_is_null, jesen_value_is_string,
      jesen_value_is_double, jesen_value_get_double, h1, h2]
  · have h1 : ¬ ((3 / 2 : ℚ) > (9223372036854775808 : ℚ) ∨
        (3 / 2 : ℚ) < -(9223372036854775808 : ℚ)) := by
      norm_num
    have ht : jrpc_trunc (3 / 2 : ℚ) = 1 := by
      unfold jrpc_trunc
      rw [if_pos (by norm_num)]
      norm_num [Int.floor_eq_iff]
    have h2 : ¬ jrpc_doubles_equal ((jrpc_trunc (3 / 2 : ℚ) : Int) : ℚ) (3 / 2 : ℚ) := by
      rw [ht]
      simp only [jrpc_doubles_equal]
      norm_num
    simp [jrpc_parse_id, jesen_value_is_null, jesen_value_is_string,
      jesen_value_is_double, jesen_value_get_double, h1, h2]
  · have hrange : ¬ ((n : ℚ) > (9223372036854775808 : ℚ) ∨
        (n : ℚ) < -(9223372036854775808 : ℚ)) := by
      push_neg
      constructor
      · calc (n : ℚ) ≤ ((2 ^ 63 - 1 : Int) : ℚ) := by exact_mod_cast hhi
          _ ≤ (9223372036854775808 : ℚ) := by norm_num
      · calc -(9223372036854775808 : ℚ) = ((-(2 ^ 63) : Int) : ℚ) := by norm_num
          _ ≤ (n : ℚ) := by exact_mod_cast hlo
    simp [jrpc_parse_id, jesen_value_is_null, jesen_value_is_string,
      jesen_value_is_double, jesen_value_get_double, hrange, jrpc_trunc_intCast,
      jrpc_doubles_equal_self, jesenrpc_id_set_number]

/-- Witness for C2: 2^64 is range-rejected, 1/2 fails the integer
round-trip, and the integer-exact 7 parses to the Number id 7. -/
theorem claim_C2_witness :
    jrpc_parse_id (.numd ((2 : ℚ) ^ 64)) = (.rpc_validation, Option.none) ∧
    jrpc_parse_id (.numd (1 / 2)) = (.rpc_validation, Option.none) ∧
    jrpc_parse_id (.numd ((7 : Int) : ℚ)) = (.ok, some (.number 7)) :=
  ⟨(claim_C2_numeric_id_parsing ((2 : ℚ) ^ 64)).1 (Or.inl (by norm_num)),
   (claim_C2_numeric_id_parsing (1 / 2)).2.1 (by norm_num)
     (by
       have ht : jrpc_trunc (1 / 2 : ℚ) = 0 := by
         unfold jrpc_trunc
         rw [if_pos (by norm_num)]
         norm_num [Int.floor_eq_iff]
       rw [ht]
       simp only [jrpc_doubles_equal]
       norm_num),
   (claim_C2_numeric_id_parsing 0).2.2.2 7 (by norm_num) (by norm_num)⟩

/-- Witness for C10: the in-range id 42 is stored as int32, the out-of-range
id 2^40 as a double (exactly representable, so the conversion keeps its
value). -/
theorem claim_C10_witness :
    jrpc_add_id_to_object (.obj []) (.number 42) =
      (.ok, .obj [("id", .i32 42)]) ∧
    jrpc_add_id_to_object (.obj []) (.number 1099511627776) =
      (.ok, .obj [("id", .numd ((1099511627776 : Int) : ℚ))]) :=
  ⟨(claim_C10_number_id_storage [] 42).1 (by decide),
   by
    have hc : jrpc_double_of_int 1099511627776 = 1099511627776 := by decide
    have h := (claim_C10_number_id_storage [] 1099511627776).2 (by decide)
    rw [hc] at h
    exact h⟩

end Jesenrpc
